import Mathlib

/-
Shallow embedding of a slice of the NetX TCP/IP stack:

  * nx_igmp_interface_report_send.c  (IGMP membership report construction)
  * nx_tcp_client_socket_connect.c   (TCP active-open client connect)
  * nx_udp_socket_bind.c             (UDP port binding and the port hash table)

Machine integers (ULONG/UINT, 32 bit) are modelled as Nat with explicit
truncation `% 2^32` exactly where C arithmetic can wrap.  C pointers are
modelled as Nat identifiers into explicit stores, with 0 playing the role
of NX_NULL, so that the source's `if (ptr)` tests translate to `≠ 0`.
External collaborators that are part of the repository but not of this
source slice (packet allocator, route resolver, SYN transmission, the
thread suspension system) enter as explicit oracle parameters; each such
parameter is documented where it is declared, and its behaviour is taken
from the specification.  The one's-complement operator `~` applied to a
ULONG value x < 2^32 is embedded as `4294967295 - x` (exact for unsigned
32-bit complement).
-/

/-- Status codes returned by the stack.  The numeric values of the NetX
status constants live in headers outside this slice; only their identity
matters here, so they are modelled as an enumeration. -/
inductive NX_STATUS where
  | NX_SUCCESS
  | NX_NOT_BOUND
  | NX_NOT_CLOSED
  | NX_IP_ADDRESS_ERROR
  | NX_INVALID_INTERFACE
  | NX_IN_PROGRESS
  | NX_NOT_CONNECTED
  | NX_ALREADY_BOUND
  | NX_NO_FREE_PORTS
  | NX_PORT_UNAVAILABLE
  | NX_NO_PACKET
  | NX_WAIT_ABORTED
deriving DecidableEq

/-- Truncation to a 32-bit unsigned value (C `ULONG` arithmetic). -/
def u32 (x : Nat) : Nat := x % 4294967296

/-- NX_TRUE (boolean constant used by the source in `== NX_TRUE` tests). -/
def NX_TRUE : Nat := 1

/-- NX_FALSE. -/
def NX_FALSE : Nat := 0

/-- NX_LOWER_16_MASK, the low-16-bit mask used by the checksum code. -/
def NX_LOWER_16_MASK : Nat := 0xFFFF

/-- NX_SHIFT_BY_16. -/
def NX_SHIFT_BY_16 : Nat := 16

/- ===================== IGMP ===================== -/

/-- Modelled from the spec: IGMP header word-0 field constants live in
nx_igmp.h, which is not part of this source slice.  The spec's wire
layout (§6) fixes byte 0 of the header as the type byte, with values
0x12 (v1 host report), 0x16 (v2 join), 0x17 (v2 leave); in the host-order
32-bit word 0 the type byte is the most significant byte. -/
def NX_IGMP_VERSION : Nat := 0x10000000

/-- Modelled from the spec: v1 host membership report type contribution
(0x10000000 ||| 0x02000000 = 0x12000000, type byte 0x12). -/
def NX_IGMP_HOST_RESPONSE_TYPE : Nat := 0x02000000

/-- Modelled from the spec: IGMPv2 membership (join) report type, byte 0x16. -/
def NX_IGMP_HOST_V2_JOIN_TYPE : Nat := 0x16000000

/-- Modelled from the spec: IGMPv2 leave-group type, byte 0x17. -/
def NX_IGMP_HOST_V2_LEAVE_TYPE : Nat := 0x17000000

/-- Modelled from the spec: the ALL-ROUTERS well-known multicast address
224.0.0.2 (spec §8, scenario 3). -/
def NX_ALL_ROUTERS_ADDRESS : Nat := 0xE0000002

/-- IGMP header size in bytes. -/
def NX_IGMP_HEADER_SIZE : Nat := 8

/-- The IGMP router (peer) version configured on the IP instance.  The
source compares `nx_ip_igmp_router_version` with `NX_IGMP_HOST_VERSION_1`;
the spec's data model (§3) gives the field the two values {v1, v2}. -/
inductive IgmpRouterVersion where
  | v1
  | v2
deriving DecidableEq

/-- The two 32-bit words of an IGMP header, in host byte order as
constructed by the source before the final endianness swap (the swap is a
pure change of byte representation for the wire and is not modelled). -/
structure NX_IGMP_HEADER where
  nx_igmp_header_word_0 : Nat
  nx_igmp_header_word_1 : Nat
deriving DecidableEq

/-- Result of `nx_igmp_interface_report_send`: returned status, the IGMP
reports-sent counter after the call, the constructed header, and the
destination / packet fields handed to `_nx_ip_packet_send`. -/
structure IgmpSendResult where
  status : NX_STATUS
  nx_ip_igmp_reports_sent : Nat
  header : NX_IGMP_HEADER
  destination_ip : Nat
  nx_packet_next_hop_address : Nat
  nx_packet_length : Nat
  nx_packet_prepend_offset : Nat
  nx_packet_interface_index : Nat
deriving DecidableEq

/-- Embedding of `_nx_igmp_interface_report_send` (src/common/src/
nx_igmp_interface_report_send.c), with NX_DISABLE_IGMPV2 and
NX_DISABLE_IGMP_INFO undefined.

Oracle parameters: `alloc_status` is the result of `_nx_packet_allocate`
(repo code outside this slice; per spec §4.4 allocation failure is the
only error and no packet is returned then); `initial_prepend` is the
allocated packet's prepend cursor, modelled as a byte offset.  On
allocation failure the source returns before touching the packet; the
packet/header fields of the result are returned as zero in that case and
are meaningless. -/
def nx_igmp_interface_report_send
    (router_version : IgmpRouterVersion)
    (reports_sent : Nat)
    (group_address : Nat) (interface_index : Nat) (is_joining : Nat)
    (alloc_status : NX_STATUS)
    (initial_prepend : Nat) : IgmpSendResult :=
  if alloc_status ≠ NX_STATUS.NX_SUCCESS then
    { status := alloc_status
      nx_ip_igmp_reports_sent := reports_sent
      header := ⟨0, 0⟩
      destination_ip := 0
      nx_packet_next_hop_address := 0
      nx_packet_length := 0
      nx_packet_prepend_offset := 0
      nx_packet_interface_index := 0 }
  else
    let reports_sent' := if is_joining = NX_TRUE then reports_sent + 1 else reports_sent
    let length := NX_IGMP_HEADER_SIZE
    let prepend := initial_prepend - NX_IGMP_HEADER_SIZE
    let word_0 : Nat :=
      match router_version with
      | .v1 => NX_IGMP_VERSION ||| NX_IGMP_HOST_RESPONSE_TYPE
      | .v2 => if is_joining ≠ 0 then NX_IGMP_HOST_V2_JOIN_TYPE else NX_IGMP_HOST_V2_LEAVE_TYPE
    let word_1 : Nat := group_address
    let temp := word_0
    let checksum := temp >>> NX_SHIFT_BY_16
    let checksum := checksum + (temp &&& NX_LOWER_16_MASK)
    let temp := word_1
    let checksum := checksum + (temp >>> NX_SHIFT_BY_16)
    let checksum := checksum + (temp &&& NX_LOWER_16_MASK)
    let checksum := (checksum >>> NX_SHIFT_BY_16) + (checksum &&& NX_LOWER_16_MASK)
    let checksum := (checksum >>> NX_SHIFT_BY_16) + (checksum &&& NX_LOWER_16_MASK)
    let word_0 := word_0 ||| ((4294967295 - checksum) &&& NX_LOWER_16_MASK)
    if is_joining = NX_TRUE then
      { status := NX_STATUS.NX_SUCCESS
        nx_ip_igmp_reports_sent := reports_sent'
        header := ⟨word_0, word_1⟩
        destination_ip := group_address
        nx_packet_next_hop_address := group_address
        nx_packet_length := length
        nx_packet_prepend_offset := prepend
        nx_packet_interface_index := interface_index }
    else
      { status := NX_STATUS.NX_SUCCESS
        nx_ip_igmp_reports_sent := reports_sent'
        header := ⟨word_0, word_1⟩
        destination_ip := NX_ALL_ROUTERS_ADDRESS
        nx_packet_next_hop_address := NX_ALL_ROUTERS_ADDRESS
        nx_packet_length := length
        nx_packet_prepend_offset := prepend
        nx_packet_interface_index := interface_index }

/-- One step of 16-bit one's-complement folding of a running sum. -/
def ones_complement_fold (s : Nat) : Nat :=
  (s >>> NX_SHIFT_BY_16) + (s &&& NX_LOWER_16_MASK)

/-- The 16-bit one's-complement sum over the four halfwords of an IGMP
header (two 32-bit words), folded to a 16-bit value.  A correct Internet
checksum makes this sum equal 0xFFFF. -/
def igmp_header_ones_sum (w0 w1 : Nat) : Nat :=
  ones_complement_fold (ones_complement_fold
    ((w0 >>> NX_SHIFT_BY_16) + (w0 &&& NX_LOWER_16_MASK) +
     (w1 >>> NX_SHIFT_BY_16) + (w1 &&& NX_LOWER_16_MASK)))

/-- Type byte of a host-order IGMP header word 0 (wire byte 0 = most
significant byte of the host-order word). -/
def igmp_type_byte (w0 : Nat) : Nat := w0 >>> 24

/- ===================== TCP client connect ===================== -/

/-- TCP socket states (nx_tcp.h is outside this slice; the state names
follow the source and spec §3). -/
inductive TcpState where
  | NX_TCP_CLOSED
  | NX_TCP_LISTEN_STATE
  | NX_TCP_SYN_SENT
  | NX_TCP_SYN_RECEIVED
  | NX_TCP_ESTABLISHED
  | NX_TCP_CLOSE_WAIT
  | NX_TCP_FIN_WAIT_1
  | NX_TCP_FIN_WAIT_2
  | NX_TCP_CLOSING
  | NX_TCP_LAST_ACK
  | NX_TCP_TIMED_WAIT
deriving DecidableEq

/-- A network interface; only the MTU matters to this slice. -/
structure NX_INTERFACE where
  nx_interface_ip_mtu_size : Nat
deriving DecidableEq

/-- Modelled from the spec: `sizeof(NX_IP_HEADER)`; the header struct is
declared outside this slice.  An IPv4 header without options is 20 bytes
(consistent with spec §8 scenario 5, where MTU = 20 is invalid). -/
def NX_IP_HEADER_SIZE : Nat := 20

/-- Modelled from the spec: `sizeof(NX_TCP_HEADER)`, 20 bytes. -/
def NX_TCP_HEADER_SIZE : Nat := 20

/-- The fields of NX_TCP_SOCKET read or written by
`_nx_tcp_client_socket_connect`.  Queue heads/tails are packet pointers
(Nat, 0 = NX_NULL). -/
structure NX_TCP_SOCKET where
  nx_tcp_socket_bound_next : Nat
  nx_tcp_socket_state : TcpState
  nx_tcp_socket_connect_ip : Nat
  nx_tcp_socket_connect_port : Nat
  nx_tcp_socket_next_hop_address : Nat
  nx_tcp_socket_connect_interface : Option NX_INTERFACE
  nx_tcp_socket_tx_sequence : Nat
  nx_tcp_socket_rx_window_default : Nat
  nx_tcp_socket_rx_window_current : Nat
  nx_tcp_socket_rx_window_last_sent : Nat
  nx_tcp_socket_fin_received : Bool
  nx_tcp_socket_timeout : Nat
  nx_tcp_socket_timeout_rate : Nat
  nx_tcp_socket_timeout_retries : Nat
  nx_tcp_socket_tx_window_congestion : Nat
  nx_tcp_socket_tx_outstanding_bytes : Nat
  nx_tcp_socket_packets_sent : Nat
  nx_tcp_socket_bytes_sent : Nat
  nx_tcp_socket_packets_received : Nat
  nx_tcp_socket_bytes_received : Nat
  nx_tcp_socket_retransmit_packets : Nat
  nx_tcp_socket_checksum_errors : Nat
  nx_tcp_socket_transmit_sent_head : Nat
  nx_tcp_socket_transmit_sent_tail : Nat
  nx_tcp_socket_transmit_sent_count : Nat
  nx_tcp_socket_receive_queue_count : Nat
  nx_tcp_socket_receive_queue_head : Nat
  nx_tcp_socket_receive_queue_tail : Nat
deriving DecidableEq

/-- Result of `nx_tcp_client_socket_connect`: the returned status, the
socket after the call, the two IP-instance TCP counters after the call,
the sequence number carried by the emitted SYN (none if no SYN was sent),
and whether the calling thread was suspended during the call. -/
structure ConnectResult where
  status : NX_STATUS
  socket : NX_TCP_SOCKET
  nx_ip_tcp_active_connections : Nat
  nx_ip_tcp_connections : Nat
  syn_sent_sequence : Option Nat
  caller_suspended : Bool
deriving DecidableEq

/-- Embedding of `_nx_tcp_client_socket_connect` (src/common/src/
nx_tcp_client_socket_connect.c), with NX_DISABLE_TCP_INFO undefined.

Oracle parameters for repo code outside this slice, modelled from the
spec:
* `route`: result of `_nx_ip_route_find` (spec §4.3): `some (interface,
  next_hop)` on success — the source stores the next hop directly into
  `nx_tcp_socket_next_hop_address` through the out-pointer — or `none` on
  failure, in which case no output is written.
* `rand1`, `rand2`: successive values of `NX_RAND()` (UINT draws; the
  source uses two draws when the current tx_sequence is zero, otherwise
  one, which is then `rand1`).
* `syn_establishes`: whether `_nx_tcp_packet_send_syn` loops back onto a
  listening socket of the same IP instance and completes the handshake
  inline, leaving the socket ESTABLISHED (spec §4.6 step 13); otherwise
  the send leaves the socket fields unchanged.
* `caller_is_ip_thread`: whether `_tx_thread_current_ptr` is the IP
  instance's internal housekeeping thread `&ip_ptr->nx_ip_thread`.
* `suspend_status`: `tx_thread_suspend_status` observed after
  `_nx_tcp_socket_thread_suspend` returns, as published by the waker or
  by the connect-cleanup routine on timeout/abort (spec §5: the cleanup
  unlinks the thread and sets the status; on a successful wake the waker
  has completed the handshake, leaving the socket ESTABLISHED). -/
def nx_tcp_client_socket_connect
    (socket : NX_TCP_SOCKET)
    (active_connections connections : Nat)
    (server_ip server_port wait_option : Nat)
    (route : Option (NX_INTERFACE × Nat))
    (rand1 rand2 : Nat)
    (syn_establishes : Bool)
    (caller_is_ip_thread : Bool)
    (suspend_status : NX_STATUS) : ConnectResult :=
  if socket.nx_tcp_socket_bound_next = 0 then
    ⟨NX_STATUS.NX_NOT_BOUND, socket, active_connections, connections, none, false⟩
  else if socket.nx_tcp_socket_state ≠ TcpState.NX_TCP_CLOSED then
    ⟨NX_STATUS.NX_NOT_CLOSED, socket, active_connections, connections, none, false⟩
  else
    match route with
    | none =>
      ⟨NX_STATUS.NX_IP_ADDRESS_ERROR, socket, active_connections, connections, none, false⟩
    | some (outgoing_interface, next_hop) =>
      let socket := { socket with nx_tcp_socket_next_hop_address := next_hop }
      let active_connections := active_connections + 1
      let connections := connections + 1
      let socket := { socket with
        nx_tcp_socket_state := TcpState.NX_TCP_SYN_SENT
        nx_tcp_socket_connect_ip := server_ip
        nx_tcp_socket_connect_port := server_port }
      if outgoing_interface.nx_interface_ip_mtu_size < NX_IP_HEADER_SIZE + NX_TCP_HEADER_SIZE then
        let active_connections := active_connections - 1
        let connections := connections - 1
        let socket := { socket with
          nx_tcp_socket_state := TcpState.NX_TCP_CLOSED
          nx_tcp_socket_connect_ip := 0
          nx_tcp_socket_connect_port := 0
          nx_tcp_socket_next_hop_address := 0 }
        ⟨NX_STATUS.NX_INVALID_INTERFACE, socket, active_connections, connections, none, false⟩
      else
        let socket := { socket with nx_tcp_socket_connect_interface := some outgoing_interface }
        let socket := { socket with
          nx_tcp_socket_tx_sequence :=
            if socket.nx_tcp_socket_tx_sequence = 0 then
              u32 (u32 ((u32 rand1) <<< NX_SHIFT_BY_16) ||| u32 rand2)
            else
              u32 (socket.nx_tcp_socket_tx_sequence + 0x10000 + u32 rand1) }
        let socket := { socket with
          nx_tcp_socket_rx_window_current := socket.nx_tcp_socket_rx_window_default
          nx_tcp_socket_rx_window_last_sent := socket.nx_tcp_socket_rx_window_default
          nx_tcp_socket_fin_received := false }
        let socket := { socket with
          nx_tcp_socket_tx_sequence := u32 (socket.nx_tcp_socket_tx_sequence + 1) }
        let socket := { socket with
          nx_tcp_socket_timeout := socket.nx_tcp_socket_timeout_rate
          nx_tcp_socket_timeout_retries := 0
          nx_tcp_socket_tx_window_congestion := 0
          nx_tcp_socket_tx_outstanding_bytes := 0
          nx_tcp_socket_packets_sent := 0
          nx_tcp_socket_bytes_sent := 0
          nx_tcp_socket_packets_received := 0
          nx_tcp_socket_bytes_received := 0
          nx_tcp_socket_retransmit_packets := 0
          nx_tcp_socket_checksum_errors := 0
          nx_tcp_socket_transmit_sent_head := 0
          nx_tcp_socket_transmit_sent_tail := 0
          nx_tcp_socket_transmit_sent_count := 0
          nx_tcp_socket_receive_queue_count := 0
          nx_tcp_socket_receive_queue_head := 0
          nx_tcp_socket_receive_queue_tail := 0 }
        let syn_sequence := u32 (socket.nx_tcp_socket_tx_sequence + 4294967295)
        let socket :=
          if syn_establishes then
            { socket with nx_tcp_socket_state := TcpState.NX_TCP_ESTABLISHED }
          else socket
        if socket.nx_tcp_socket_state = TcpState.NX_TCP_ESTABLISHED then
          ⟨NX_STATUS.NX_SUCCESS, socket, active_connections, connections, some syn_sequence, false⟩
        else if wait_option ≠ 0 ∧ caller_is_ip_thread = false then
          if suspend_status ≠ NX_STATUS.NX_SUCCESS then
            let socket := { socket with nx_tcp_socket_state := TcpState.NX_TCP_CLOSED }
            ⟨suspend_status, socket, active_connections, connections, some syn_sequence, true⟩
          else
            let socket := { socket with nx_tcp_socket_state := TcpState.NX_TCP_ESTABLISHED }
            ⟨NX_STATUS.NX_SUCCESS, socket, active_connections, connections, some syn_sequence, true⟩
        else
          ⟨NX_STATUS.NX_IN_PROGRESS, socket, active_connections, connections, some syn_sequence, false⟩

/- ===================== UDP bind ===================== -/

/-- NX_ANY_PORT. -/
def NX_ANY_PORT : Nat := 0

/-- Modelled from ThreadX headers (outside this slice): the thread-state
code TX_TCP_IP stored into `tx_thread_state` before suspension. -/
def TX_TCP_IP : Nat := 12

/-- Model tag for the function pointer `_nx_udp_bind_cleanup` stored into
`tx_thread_suspend_cleanup` (the routine itself is outside this slice). -/
def NX_UDP_BIND_CLEANUP : Nat := 1

/-- The fields of NX_UDP_SOCKET used by `_nx_udp_socket_bind`.  Pointer
fields hold socket/thread identifiers, 0 = NX_NULL. -/
structure NX_UDP_SOCKET where
  nx_udp_socket_port : Nat
  nx_udp_socket_bound_next : Nat
  nx_udp_socket_bound_previous : Nat
  nx_udp_socket_bind_in_progress : Nat
  nx_udp_socket_bind_suspension_list : Nat
  nx_udp_socket_bind_suspended_count : Nat
deriving DecidableEq

/-- The fields of TX_THREAD used by `_nx_udp_socket_bind`. -/
structure TX_THREAD where
  tx_thread_suspend_cleanup : Nat
  tx_thread_suspend_control_block : Nat
  tx_thread_suspended_next : Nat
  tx_thread_suspended_previous : Nat
  tx_thread_state : Nat
  tx_thread_suspending : Bool
  tx_timer_remaining_ticks : Nat
deriving DecidableEq

/-- The state touched by `_nx_udp_socket_bind`: the socket store, the
thread store, the IP instance's UDP port hash table (index to head socket
pointer, 0 = empty bucket), and the ThreadX preemption-disable counter. -/
structure UdpWorld where
  sockets : Nat → NX_UDP_SOCKET
  threads : Nat → TX_THREAD
  nx_ip_udp_port_table : Nat → Nat
  preempt_disable : Nat

/-- Pointwise socket-store update. -/
def updSocket (w : UdpWorld) (i : Nat) (s : NX_UDP_SOCKET) : UdpWorld :=
  { w with sockets := fun j => if j = i then s else w.sockets j }

/-- Pointwise thread-store update. -/
def updThread (w : UdpWorld) (i : Nat) (t : TX_THREAD) : UdpWorld :=
  { w with threads := fun j => if j = i then t else w.threads j }

/-- Pointwise port-table update. -/
def updTable (w : UdpWorld) (i : Nat) (v : Nat) : UdpWorld :=
  { w with nx_ip_udp_port_table := fun j => if j = i then v else w.nx_ip_udp_port_table j }

/-- The UDP port hash of the source: `(port + (port >> 8)) &
NX_UDP_PORT_TABLE_MASK` (the mask is a compile-time power-of-two-minus-one
constant outside this slice; it is carried as a parameter). -/
def udp_port_index (mask port : Nat) : Nat := (port + (port >>> 8)) &&& mask

/-- The bucket walk of `_nx_udp_socket_bind` lines 139-158: starting at
the bucket head, follow `nx_udp_socket_bound_next` until a socket with
the requested port is found (return it) or the walk is back at the head
(return the head, mirroring the do-while's final search pointer).  `fuel`
bounds the walk for Lean totality; every lemma supplies fuel at least the
bucket length, which makes the walk identical to the source's. -/
def walkSearch (sockets : Nat → NX_UDP_SOCKET) (port end_id : Nat) : Nat → Nat → Nat
  | cur, 0 => cur
  | cur, fuel + 1 =>
    if (sockets cur).nx_udp_socket_port = port then cur
    else
      let nxt := (sockets cur).nx_udp_socket_bound_next
      if nxt = end_id then nxt
      else walkSearch sockets port end_id nxt fuel

/-- Result of `nx_udp_socket_bind`: the returned status, the world at
return (for the suspension path: at the moment of suspension, since any
later effect is the waker's), and whether the calling thread suspended. -/
structure BindResult where
  status : NX_STATUS
  world : UdpWorld
  suspended : Bool

/-- The bucket splice of `_nx_udp_socket_bind` lines 162-201 (the
interrupt-disabled region): if `search` is nonzero the bucket is
non-empty and the socket is appended at the end of the circular list;
otherwise the socket becomes a self-loop and the bucket head.  Store
reads follow the source's statement order. -/
def udp_bind_splice (w1 : UdpWorld) (index search socket_id : Nat) : UdpWorld :=
  if search ≠ 0 then
    let head := w1.nx_ip_udp_port_table index
    let w2 := updSocket w1 socket_id
      { w1.sockets socket_id with nx_udp_socket_bound_next := head }
    let w3 := updSocket w2 socket_id
      { w2.sockets socket_id with
        nx_udp_socket_bound_previous := (w2.sockets head).nx_udp_socket_bound_previous }
    let prev2 := (w3.sockets (w3.nx_ip_udp_port_table index)).nx_udp_socket_bound_previous
    let w4 := updSocket w3 prev2
      { w3.sockets prev2 with nx_udp_socket_bound_next := socket_id }
    let head2 := w4.nx_ip_udp_port_table index
    updSocket w4 head2 { w4.sockets head2 with nx_udp_socket_bound_previous := socket_id }
  else
    let w2 := updSocket w1 socket_id
      { w1.sockets socket_id with
        nx_udp_socket_bound_next := socket_id
        nx_udp_socket_bound_previous := socket_id }
    updTable w2 index socket_id

/-- The suspension setup of `_nx_udp_socket_bind` lines 206-270: record
the cleanup routine and control block on the thread, remember the owning
socket in `bound_previous`, set `bind_in_progress`, queue the thread on
the owner's `bind_suspension_list` ring, bump the suspended count, mark
the thread suspending with the timeout, and bump the preemption-disable
counter.  The world returned is the state at the moment
`_tx_thread_system_suspend` is entered. -/
def udp_bind_suspend (w1 : UdpWorld) (search socket_id thread_id wait_option : Nat) : UdpWorld :=
  let w2 := updThread w1 thread_id
    { w1.threads thread_id with
      tx_thread_suspend_cleanup := NX_UDP_BIND_CLEANUP
      tx_thread_suspend_control_block := socket_id }
  let w3 := updSocket w2 socket_id
    { w2.sockets socket_id with
      nx_udp_socket_bound_previous := search
      nx_udp_socket_bind_in_progress := thread_id }
  let slist := (w3.sockets search).nx_udp_socket_bind_suspension_list
  let w4 :=
    if slist ≠ 0 then
      let w4a := updThread w3 thread_id
        { w3.threads thread_id with tx_thread_suspended_next := slist }
      let w4b := updThread w4a thread_id
        { w4a.threads thread_id with
          tx_thread_suspended_previous := (w4a.threads slist).tx_thread_suspended_previous }
      let slist2 := (w4b.sockets search).nx_udp_socket_bind_suspension_list
      let prevT := (w4b.threads slist2).tx_thread_suspended_previous
      let w4c := updThread w4b prevT
        { w4b.threads prevT with tx_thread_suspended_next := thread_id }
      let slist3 := (w4c.sockets search).nx_udp_socket_bind_suspension_list
      updThread w4c slist3
        { w4c.threads slist3 with tx_thread_suspended_previous := thread_id }
    else
      let w4a := updSocket w3 search
        { w3.sockets search with nx_udp_socket_bind_suspension_list := thread_id }
      updThread w4a thread_id
        { w4a.threads thread_id with
          tx_thread_suspended_next := thread_id
          tx_thread_suspended_previous := thread_id }
  let w5 := updSocket w4 search
    { w4.sockets search with
      nx_udp_socket_bind_suspended_count :=
        (w4.sockets search).nx_udp_socket_bind_suspended_count + 1 }
  let w6 := updThread w5 thread_id
    { w5.threads thread_id with
      tx_thread_state := TX_TCP_IP
      tx_thread_suspending := true
      tx_timer_remaining_ticks := wait_option }
  { w6 with preempt_disable := w6.preempt_disable + 1 }

/-- The tail of `_nx_udp_socket_bind` after the bucket walk has produced
its final search pointer: lines 161-286.  `search` is the walk's result
(0 when the bucket was empty). -/
def udp_bind_with_search (w1 : UdpWorld) (index search socket_id thread_id port wait_option : Nat)
    (wake_status : NX_STATUS) : BindResult :=
  if search = 0 ∨ (w1.sockets search).nx_udp_socket_port ≠ port then
    ⟨NX_STATUS.NX_SUCCESS, udp_bind_splice w1 index search socket_id, false⟩
  else if wait_option ≠ 0 then
    ⟨wake_status, udp_bind_suspend w1 search socket_id thread_id wait_option, true⟩
  else
    ⟨NX_STATUS.NX_PORT_UNAVAILABLE, w1, false⟩

/-- Embedding of `_nx_udp_socket_bind` (src/common/src/nx_udp_socket_bind.c).

`socket_id` and `thread_id` identify the binding socket and the calling
thread in the stores.  Oracle parameters for repo code outside this
slice, modelled from the spec:
* `free_port`: combined result of the NX_RAND starting draw and
  `_nx_udp_free_port_find` (spec §4.5 step 3): the allocated port, or
  none when no port is free.
* `wake_status`: `tx_thread_suspend_status` as set by whoever wakes the
  thread after `_tx_thread_system_suspend` (the owner's unbind or the
  timeout cleanup, spec §4.5 step 8); the source returns it verbatim. -/
def nx_udp_socket_bind
    (w : UdpWorld) (mask fuel : Nat)
    (socket_id thread_id : Nat) (port : Nat) (wait_option : Nat)
    (free_port : Option Nat)
    (wake_status : NX_STATUS) : BindResult :=
  let s := w.sockets socket_id
  if s.nx_udp_socket_bound_next ≠ 0 ∨ s.nx_udp_socket_bind_in_progress ≠ 0 then
    ⟨NX_STATUS.NX_ALREADY_BOUND, w, false⟩
  else
    let rest : Nat → BindResult := fun port =>
      let w1 := updSocket w socket_id { s with nx_udp_socket_port := port }
      let index := udp_port_index mask port
      let head := w1.nx_ip_udp_port_table index
      let search := if head ≠ 0 then walkSearch w1.sockets port head head fuel else 0
      udp_bind_with_search w1 index search socket_id thread_id port wait_option wake_status
    if port = NX_ANY_PORT then
      match free_port with
      | none => ⟨NX_STATUS.NX_NO_FREE_PORTS, w, false⟩
      | some p => rest p
    else rest port

/- ===================== UDP bucket ring predicates ===================== -/

/-- `nextPathB f a l b` holds when, starting at node `a` and repeatedly
following `f`, the nodes visited are exactly the list `l` (whose head is
`a`) and the step taken from the last visited node lands on `b`. -/
def nextPathB (f : Nat → Nat) : Nat → List Nat → Nat → Bool
  | a, [], b => a == b
  | a, x :: xs, b => (x == a) && nextPathB f (f a) xs b

/-- The forward-pointer function of a world's socket store. -/
def bound_next_of (w : UdpWorld) : Nat → Nat :=
  fun i => (w.sockets i).nx_udp_socket_bound_next

/-- The backward-pointer function of a world's socket store. -/
def bound_prev_of (w : UdpWorld) : Nat → Nat :=
  fun i => (w.sockets i).nx_udp_socket_bound_previous

/-- `isRing next prev h l`: the sockets `l`, headed by `h`, form a closed
circular doubly-linked list: following `next` from `h` visits exactly `l`
and returns to `h`, and following `prev` from `h` visits `l` in reverse
order (h, then l.tail reversed) and returns to `h`.  All members are
distinct valid (nonzero) identifiers. -/
def isRing (next prev : Nat → Nat) (h : Nat) (l : List Nat) : Prop :=
  l ≠ [] ∧ l.head? = some h ∧ l.Nodup ∧ 0 ∉ l ∧
  nextPathB next h l h = true ∧
  nextPathB prev h (h :: l.tail.reverse) h = true

/-- `TableInv w mask rep`: the UDP port-table invariant of spec §4.5/§8.
`rep i` lists the members of bucket `i` in ring order starting at the
bucket head.  Every bucket is empty or a ring of sockets all of which
hash to that bucket, and distinct buckets are disjoint. -/
def TableInv (w : UdpWorld) (mask : Nat) (rep : Nat → List Nat) : Prop :=
  (∀ i, i ≤ mask →
    (if w.nx_ip_udp_port_table i = 0 then rep i = []
     else isRing (bound_next_of w) (bound_prev_of w) (w.nx_ip_udp_port_table i) (rep i))) ∧
  (∀ i, i ≤ mask → ∀ x ∈ rep i, udp_port_index mask ((w.sockets x).nx_udp_socket_port) = i) ∧
  (∀ i, i ≤ mask → ∀ j, j ≤ mask → i ≠ j → ∀ x ∈ rep i, x ∉ rep j)

/-- Implications between decidable propositions are decidable (used to
evaluate `TableInv` on concrete worlds). -/
instance decImpProp (p q : Prop) [dp : Decidable p] [dq : Decidable q] : Decidable (p → q) :=
  if hp : p then
    match dq with
    | isTrue hq => isTrue fun _ => hq
    | isFalse hq => isFalse fun hi => hq (hi hp)
  else isTrue fun hpp => absurd hpp hp

/-- Propositions formed by an `if` on a decidable condition with decidable
branches are decidable (used to evaluate `TableInv` on concrete worlds). -/
instance decidableIteProp (c p q : Prop) [dc : Decidable c] [dp : Decidable p]
    [dq : Decidable q] : Decidable (if c then p else q) :=
  if h : c then by rw [if_pos h]; exact dp else by rw [if_neg h]; exact dq

/- ===================== Concrete scenarios for witnesses ===================== -/

/-- A UDP socket with all fields zero (fresh, unbound). -/
def udpFreshSocket : NX_UDP_SOCKET := ⟨0, 0, 0, 0, 0, 0⟩

/-- A thread with all fields zero. -/
def txFreshThread : TX_THREAD := ⟨0, 0, 0, 0, 0, false, 0⟩

/-- A world with socket 1 bound to port 5000 as a self-loop in bucket
`udp_port_index 15 5000 = 11`, socket 2 fresh, thread 7 fresh. -/
def udpWorld0 : UdpWorld :=
  { sockets := fun i => if i = 1 then ⟨5000, 1, 1, 0, 0, 0⟩ else udpFreshSocket
    threads := fun _ => txFreshThread
    nx_ip_udp_port_table := fun i => if i = 11 then 1 else 0
    preempt_disable := 0 }

/-- Bucket representation of `udpWorld0`: bucket 11 holds exactly socket 1. -/
def udpRep0 : Nat → List Nat := fun i => if i = 11 then [1] else []

/-- A bound, CLOSED TCP socket with zeroed transient fields, nonzero
tx_sequence, and sane window defaults. -/
def tcpSocket0 : NX_TCP_SOCKET :=
  { nx_tcp_socket_bound_next := 1
    nx_tcp_socket_state := TcpState.NX_TCP_CLOSED
    nx_tcp_socket_connect_ip := 0
    nx_tcp_socket_connect_port := 0
    nx_tcp_socket_next_hop_address := 0
    nx_tcp_socket_connect_interface := none
    nx_tcp_socket_tx_sequence := 100
    nx_tcp_socket_rx_window_default := 8192
    nx_tcp_socket_rx_window_current := 8192
    nx_tcp_socket_rx_window_last_sent := 8192
    nx_tcp_socket_fin_received := false
    nx_tcp_socket_timeout := 0
    nx_tcp_socket_timeout_rate := 10
    nx_tcp_socket_timeout_retries := 0
    nx_tcp_socket_tx_window_congestion := 0
    nx_tcp_socket_tx_outstanding_bytes := 0
    nx_tcp_socket_packets_sent := 0
    nx_tcp_socket_bytes_sent := 0
    nx_tcp_socket_packets_received := 0
    nx_tcp_socket_bytes_received := 0
    nx_tcp_socket_retransmit_packets := 0
    nx_tcp_socket_checksum_errors := 0
    nx_tcp_socket_transmit_sent_head := 0
    nx_tcp_socket_transmit_sent_tail := 0
    nx_tcp_socket_transmit_sent_count := 0
    nx_tcp_socket_receive_queue_count := 0
    nx_tcp_socket_receive_queue_head := 0
    nx_tcp_socket_receive_queue_tail := 0 }

/-- An interface with a normal Ethernet MTU. -/
def intf1500 : NX_INTERFACE := ⟨1500⟩

/-- An interface whose MTU is smaller than IP + TCP header sizes. -/
def intf20 : NX_INTERFACE := ⟨20⟩

/-- The initial (pre-checksum) header word 0 chosen by
`nx_igmp_interface_report_send` from the router version and the join
flag. -/
def igmp_word0_init (router_version : IgmpRouterVersion) (is_joining : Nat) : Nat :=
  match router_version with
  | .v1 => NX_IGMP_VERSION ||| NX_IGMP_HOST_RESPONSE_TYPE
  | .v2 => if is_joining ≠ 0 then NX_IGMP_HOST_V2_JOIN_TYPE else NX_IGMP_HOST_V2_LEAVE_TYPE

/- ===================== Helper lemmas: bit arithmetic ===================== -/

theorem and_mask16 (x : Nat) : x &&& 65535 = x % 65536 := by
  have h := Nat.and_pow_two_sub_one_eq_mod x 16
  norm_num at h
  exact h

theorem lor_shiftRight_distrib (a b n : Nat) : (a ||| b) >>> n = (a >>> n) ||| (b >>> n) := by
  apply Nat.eq_of_testBit_eq
  intro i
  simp [Nat.testBit_lor, Nat.testBit_shiftRight]

theorem lor_and_distrib (a b m : Nat) : (a ||| b) &&& m = (a &&& m) ||| (b &&& m) := by
  apply Nat.eq_of_testBit_eq
  intro i
  simp [Nat.testBit_lor, Nat.testBit_and, Bool.and_or_distrib_right]

/- ===================== Helper lemmas: IGMP ===================== -/

/-- On the allocation-success path the constructed header is the initial
word 0 with the folded complement checksum ORed in, and the group in
word 1, for either value of the join flag. -/
theorem report_send_header (rv : IgmpRouterVersion) (rs g ii isj pp : Nat) :
    (nx_igmp_interface_report_send rv rs g ii isj NX_STATUS.NX_SUCCESS pp).header =
      ⟨igmp_word0_init rv isj |||
        ((4294967295 - igmp_header_ones_sum (igmp_word0_init rv isj) g) &&& NX_LOWER_16_MASK),
       g⟩ := by
  simp only [nx_igmp_interface_report_send, igmp_header_ones_sum, ones_complement_fold,
    igmp_word0_init, ne_eq, not_true_eq_false, if_false, ite_not]
  split <;> rfl

/-- After the complement of the folded one's-complement sum is ORed into
a word 0 whose low half was zero, the folded one's-complement sum over
the full header is 0xFFFF. -/
theorem igmp_sum_checksummed (W g : Nat) (hW : W % 65536 = 0) (hpos : 65536 ≤ W)
    (hW32 : W < 4294967296) (hg : g < 4294967296) :
    igmp_header_ones_sum
      (W ||| ((4294967295 - igmp_header_ones_sum W g) &&& NX_LOWER_16_MASK)) g = 65535 := by
  have hmask : ∀ x : Nat, x &&& NX_LOWER_16_MASK = x % 65536 := by
    intro x
    simp only [NX_LOWER_16_MASK]
    exact and_mask16 x
  have hsh : ∀ x : Nat, x >>> NX_SHIFT_BY_16 = x / 65536 := by
    intro x
    simp only [NX_SHIFT_BY_16]
    rw [Nat.shiftRight_eq_div_pow]
  have horhi : ∀ k : Nat, k < 65536 → (W ||| k) >>> NX_SHIFT_BY_16 = W / 65536 := by
    intro k hk
    rw [lor_shiftRight_distrib, hsh, hsh]
    have hz : k / 65536 = 0 := Nat.div_eq_of_lt hk
    rw [hz, Nat.or_zero]
  have horlo : ∀ k : Nat, k < 65536 → (W ||| k) &&& NX_LOWER_16_MASK = k := by
    intro k hk
    rw [lor_and_distrib, hmask, hmask, hW, Nat.zero_or]
    exact Nat.mod_eq_of_lt hk
  obtain ⟨c, hc⟩ : ∃ c, c = igmp_header_ones_sum W g := ⟨_, rfl⟩
  rw [← hc]
  have hcval : c =
      ((W / 65536 + W % 65536 + g / 65536 + g % 65536) / 65536 +
       (W / 65536 + W % 65536 + g / 65536 + g % 65536) % 65536) / 65536 +
      ((W / 65536 + W % 65536 + g / 65536 + g % 65536) / 65536 +
       (W / 65536 + W % 65536 + g / 65536 + g % 65536) % 65536) % 65536 := by
    rw [hc]
    simp only [igmp_header_ones_sum, ones_complement_fold, hmask, hsh]
  obtain ⟨k, hk⟩ : ∃ k, k = (4294967295 - c) &&& NX_LOWER_16_MASK := ⟨_, rfl⟩
  rw [← hk]
  have hkval : k = 65535 - c := by
    rw [hk, hmask]
    omega
  have hklt : k < 65536 := by omega
  simp only [igmp_header_ones_sum, ones_complement_fold]
  rw [horhi k hklt, horlo k hklt]
  simp only [hsh, hmask]
  omega

/-- Any value masked to 16 bits is below 2^16. -/
theorem mask16_lt (x : Nat) : x &&& NX_LOWER_16_MASK < 65536 := by
  simp only [NX_LOWER_16_MASK]
  rw [and_mask16]
  omega

/-- ORing a sub-2^16 value into a word does not change its top byte. -/
theorem igmp_type_byte_or (W k : Nat) (hk : k < 65536) :
    igmp_type_byte (W ||| k) = igmp_type_byte W := by
  simp only [igmp_type_byte]
  rw [lor_shiftRight_distrib]
  have hz : k >>> 24 = 0 := by
    rw [Nat.shiftRight_eq_div_pow]
    exact Nat.div_eq_of_lt (by omega)
  rw [hz, Nat.or_zero]

/- ===================== Claim theorems: IGMP ===================== -/

/-- C2: for every IGMP report emitted by report_send (on the allocation
success path), the checksum is the double-folded 16-bit one's-complement
sum of the two header words with its one's complement ORed into word 0;
consequently the folded 16-bit one's-complement sum over the resulting
header equals 0xFFFF. -/
theorem C2_igmp_report_checksum (rv : IgmpRouterVersion) (rs g ii isj pp : Nat)
    (hg : g < 4294967296) :
    igmp_header_ones_sum
      ((nx_igmp_interface_report_send rv rs g ii isj NX_STATUS.NX_SUCCESS pp).header.nx_igmp_header_word_0)
      ((nx_igmp_interface_report_send rv rs g ii isj NX_STATUS.NX_SUCCESS pp).header.nx_igmp_header_word_1)
      = 0xFFFF := by
  rw [report_send_header]
  cases rv with
  | v1 =>
    have h12 : igmp_word0_init IgmpRouterVersion.v1 isj = 0x12000000 := rfl
    rw [h12]
    exact igmp_sum_checksummed 0x12000000 g (by norm_num) (by norm_num) (by norm_num) hg
  | v2 =>
    by_cases hj : isj ≠ 0
    · have h16 : igmp_word0_init IgmpRouterVersion.v2 isj = 0x16000000 := by
        simp [igmp_word0_init, hj, NX_IGMP_HOST_V2_JOIN_TYPE]
      rw [h16]
      exact igmp_sum_checksummed 0x16000000 g (by norm_num) (by norm_num) (by norm_num) hg
    · have h17 : igmp_word0_init IgmpRouterVersion.v2 isj = 0x17000000 := by
        simp only [ne_eq, not_not] at hj
        simp [igmp_word0_init, hj, NX_IGMP_HOST_V2_LEAVE_TYPE]
      rw [h17]
      exact igmp_sum_checksummed 0x17000000 g (by norm_num) (by norm_num) (by norm_num) hg

/-- C2 witness: the checksum property evaluated at a concrete v2 join
report for group 224.0.0.42. -/
theorem C2_igmp_report_checksum_witness :
    (0xE000002A : Nat) < 4294967296 ∧
    igmp_header_ones_sum
      ((nx_igmp_interface_report_send IgmpRouterVersion.v2 0 0xE000002A 0 1 NX_STATUS.NX_SUCCESS 64).header.nx_igmp_header_word_0)
      ((nx_igmp_interface_report_send IgmpRouterVersion.v2 0 0xE000002A 0 1 NX_STATUS.NX_SUCCESS 64).header.nx_igmp_header_word_1)
      = 0xFFFF :=
  ⟨by norm_num, C2_igmp_report_checksum IgmpRouterVersion.v2 0 0xE000002A 0 1 64 (by norm_num)⟩

/-- C7: every IGMP report emitted with a v1 peer router carries type byte
0x12, for any value of the join flag. -/
theorem C7_igmp_v1_type_byte (rs g ii isj pp : Nat) :
    igmp_type_byte
      ((nx_igmp_interface_report_send IgmpRouterVersion.v1 rs g ii isj NX_STATUS.NX_SUCCESS pp).header.nx_igmp_header_word_0)
      = 0x12 := by
  rw [report_send_header]
  have h12 : igmp_word0_init IgmpRouterVersion.v1 isj = 0x12000000 := rfl
  rw [h12, igmp_type_byte_or _ _ (mask16_lt _)]
  decide

/-- C9: in report_send the reports-sent increment and the destination /
next-hop selection test `is_joining == NX_TRUE`, while the v2 header-type
selection tests mere non-zeroness; hence a nonzero `is_joining` other
than 1 with a v2 peer yields a packet carrying the v2 JOIN type yet
addressed and next-hopped to ALL-ROUTERS, with the reports-sent counter
not incremented. -/
theorem C9_igmp_truthiness_mismatch (rs g ii isj pp : Nat)
    (h0 : isj ≠ 0) (h1 : isj ≠ 1) :
    (nx_igmp_interface_report_send IgmpRouterVersion.v2 rs g ii isj NX_STATUS.NX_SUCCESS pp).destination_ip
      = NX_ALL_ROUTERS_ADDRESS ∧
    (nx_igmp_interface_report_send IgmpRouterVersion.v2 rs g ii isj NX_STATUS.NX_SUCCESS pp).nx_packet_next_hop_address
      = NX_ALL_ROUTERS_ADDRESS ∧
    (nx_igmp_interface_report_send IgmpRouterVersion.v2 rs g ii isj NX_STATUS.NX_SUCCESS pp).nx_ip_igmp_reports_sent
      = rs ∧
    igmp_type_byte
      ((nx_igmp_interface_report_send IgmpRouterVersion.v2 rs g ii isj NX_STATUS.NX_SUCCESS pp).header.nx_igmp_header_word_0)
      = 0x16 := by
  have h16 : igmp_word0_init IgmpRouterVersion.v2 isj = 0x16000000 := by
    simp [igmp_word0_init, h0, NX_IGMP_HOST_V2_JOIN_TYPE]
  refine ⟨?_, ?_, ?_, ?_⟩
  · simp [nx_igmp_interface_report_send, NX_TRUE, h1]
  · simp [nx_igmp_interface_report_send, NX_TRUE, h1]
  · simp [nx_igmp_interface_report_send, NX_TRUE, h1]
  · rw [report_send_header, h16, igmp_type_byte_or _ _ (mask16_lt _)]
    decide

/-- C9 witness: the mixed-predicate behaviour at `is_joining = 2`. -/
theorem C9_igmp_truthiness_mismatch_witness :
    ((2 : Nat) ≠ 0 ∧ (2 : Nat) ≠ 1) ∧
    ((nx_igmp_interface_report_send IgmpRouterVersion.v2 5 0xE000002A 0 2 NX_STATUS.NX_SUCCESS 64).destination_ip
      = NX_ALL_ROUTERS_ADDRESS ∧
     (nx_igmp_interface_report_send IgmpRouterVersion.v2 5 0xE000002A 0 2 NX_STATUS.NX_SUCCESS 64).nx_packet_next_hop_address
      = NX_ALL_ROUTERS_ADDRESS ∧
     (nx_igmp_interface_report_send IgmpRouterVersion.v2 5 0xE000002A 0 2 NX_STATUS.NX_SUCCESS 64).nx_ip_igmp_reports_sent
      = 5 ∧
     igmp_type_byte
      ((nx_igmp_interface_report_send IgmpRouterVersion.v2 5 0xE000002A 0 2 NX_STATUS.NX_SUCCESS 64).header.nx_igmp_header_word_0)
      = 0x16) :=
  ⟨⟨by decide, by decide⟩,
   C9_igmp_truthiness_mismatch 5 0xE000002A 0 2 64 (by decide) (by decide)⟩

/- ===================== Claim theorems: TCP connect ===================== -/

/-- C3: a connect on a bound CLOSED socket whose resolved interface has
an MTU smaller than IP+TCP header sizes returns NX_INVALID_INTERFACE,
leaves both TCP counters at their pre-call values, and leaves the socket
CLOSED with connect_ip, connect_port and next_hop_address zero. -/
theorem C3_tcp_connect_mtu_rollback
    (socket : NX_TCP_SOCKET) (ac conns sip sport wait : Nat)
    (intf : NX_INTERFACE) (nh r1 r2 : Nat) (syn_est ipthr : Bool) (ss : NX_STATUS)
    (hbound : socket.nx_tcp_socket_bound_next ≠ 0)
    (hclosed : socket.nx_tcp_socket_state = TcpState.NX_TCP_CLOSED)
    (hmtu : intf.nx_interface_ip_mtu_size < NX_IP_HEADER_SIZE + NX_TCP_HEADER_SIZE) :
    (nx_tcp_client_socket_connect socket ac conns sip sport wait (some (intf, nh)) r1 r2 syn_est ipthr ss).status
      = NX_STATUS.NX_INVALID_INTERFACE ∧
    (nx_tcp_client_socket_connect socket ac conns sip sport wait (some (intf, nh)) r1 r2 syn_est ipthr ss).nx_ip_tcp_active_connections
      = ac ∧
    (nx_tcp_client_socket_connect socket ac conns sip sport wait (some (intf, nh)) r1 r2 syn_est ipthr ss).nx_ip_tcp_connections
      = conns ∧
    (nx_tcp_client_socket_connect socket ac conns sip sport wait (some (intf, nh)) r1 r2 syn_est ipthr ss).socket.nx_tcp_socket_state
      = TcpState.NX_TCP_CLOSED ∧
    (nx_tcp_client_socket_connect socket ac conns sip sport wait (some (intf, nh)) r1 r2 syn_est ipthr ss).socket.nx_tcp_socket_connect_ip
      = 0 ∧
    (nx_tcp_client_socket_connect socket ac conns sip sport wait (some (intf, nh)) r1 r2 syn_est ipthr ss).socket.nx_tcp_socket_connect_port
      = 0 ∧
    (nx_tcp_client_socket_connect socket ac conns sip sport wait (some (intf, nh)) r1 r2 syn_est ipthr ss).socket.nx_tcp_socket_next_hop_address
      = 0 := by
  have hc' : ¬(socket.nx_tcp_socket_state ≠ TcpState.NX_TCP_CLOSED) := by simp [hclosed]
  simp only [nx_tcp_client_socket_connect, if_neg hbound, if_neg hc', if_pos hmtu]
  refine ⟨trivial, ?_, ?_, trivial, trivial, trivial, trivial⟩ <;> omega

/-- C3 witness: the MTU rollback evaluated on a bound closed socket and a
20-byte-MTU interface. -/
theorem C3_tcp_connect_mtu_rollback_witness :
    (tcpSocket0.nx_tcp_socket_bound_next ≠ 0 ∧
     tcpSocket0.nx_tcp_socket_state = TcpState.NX_TCP_CLOSED ∧
     intf20.nx_interface_ip_mtu_size < NX_IP_HEADER_SIZE + NX_TCP_HEADER_SIZE) ∧
    ((nx_tcp_client_socket_connect tcpSocket0 3 7 0x01020304 80 0 (some (intf20, 0x01020304)) 7 9 false false NX_STATUS.NX_SUCCESS).status
      = NX_STATUS.NX_INVALID_INTERFACE ∧
     (nx_tcp_client_socket_connect tcpSocket0 3 7 0x01020304 80 0 (some (intf20, 0x01020304)) 7 9 false false NX_STATUS.NX_SUCCESS).nx_ip_tcp_active_connections
      = 3 ∧
     (nx_tcp_client_socket_connect tcpSocket0 3 7 0x01020304 80 0 (some (intf20, 0x01020304)) 7 9 false false NX_STATUS.NX_SUCCESS).nx_ip_tcp_connections
      = 7 ∧
     (nx_tcp_client_socket_connect tcpSocket0 3 7 0x01020304 80 0 (some (intf20, 0x01020304)) 7 9 false false NX_STATUS.NX_SUCCESS).socket.nx_tcp_socket_state
      = TcpState.NX_TCP_CLOSED ∧
     (nx_tcp_client_socket_connect tcpSocket0 3 7 0x01020304 80 0 (some (intf20, 0x01020304)) 7 9 false false NX_STATUS.NX_SUCCESS).socket.nx_tcp_socket_connect_ip
      = 0 ∧
     (nx_tcp_client_socket_connect tcpSocket0 3 7 0x01020304 80 0 (some (intf20, 0x01020304)) 7 9 false false NX_STATUS.NX_SUCCESS).socket.nx_tcp_socket_connect_port
      = 0 ∧
     (nx_tcp_client_socket_connect tcpSocket0 3 7 0x01020304 80 0 (some (intf20, 0x01020304)) 7 9 false false NX_STATUS.NX_SUCCESS).socket.nx_tcp_socket_next_hop_address
      = 0) :=
  ⟨⟨by decide, by decide, by decide⟩,
   C3_tcp_connect_mtu_rollback tcpSocket0 3 7 0x01020304 80 0 intf20 0x01020304 7 9 false false
     NX_STATUS.NX_SUCCESS (by decide) (by decide) (by decide)⟩

/-- C8: a connect issued by the IP housekeeping thread that reaches the
point after SYN emission with the socket not ESTABLISHED never suspends
the caller and returns NX_IN_PROGRESS, for every wait option. -/
theorem C8_tcp_connect_ip_thread_no_suspend
    (socket : NX_TCP_SOCKET) (ac conns sip sport wait : Nat)
    (intf : NX_INTERFACE) (nh r1 r2 : Nat) (ss : NX_STATUS)
    (hbound : socket.nx_tcp_socket_bound_next ≠ 0)
    (hclosed : socket.nx_tcp_socket_state = TcpState.NX_TCP_CLOSED)
    (hmtu : ¬ intf.nx_interface_ip_mtu_size < NX_IP_HEADER_SIZE + NX_TCP_HEADER_SIZE) :
    (nx_tcp_client_socket_connect socket ac conns sip sport wait (some (intf, nh)) r1 r2 false true ss).status
      = NX_STATUS.NX_IN_PROGRESS ∧
    (nx_tcp_client_socket_connect socket ac conns sip sport wait (some (intf, nh)) r1 r2 false true ss).caller_suspended
      = false := by
  have hc' : ¬(socket.nx_tcp_socket_state ≠ TcpState.NX_TCP_CLOSED) := by simp [hclosed]
  simp only [nx_tcp_client_socket_connect, if_neg hbound, if_neg hc', if_neg hmtu]
  constructor <;> simp

/-- C8 witness: the IP-thread connect with a positive wait option. -/
theorem C8_tcp_connect_ip_thread_no_suspend_witness :
    (tcpSocket0.nx_tcp_socket_bound_next ≠ 0 ∧
     tcpSocket0.nx_tcp_socket_state = TcpState.NX_TCP_CLOSED ∧
     ¬ intf1500.nx_interface_ip_mtu_size < NX_IP_HEADER_SIZE + NX_TCP_HEADER_SIZE) ∧
    ((nx_tcp_client_socket_connect tcpSocket0 3 7 0x01020304 80 100 (some (intf1500, 0x01020304)) 7 9 false true NX_STATUS.NX_SUCCESS).status
      = NX_STATUS.NX_IN_PROGRESS ∧
     (nx_tcp_client_socket_connect tcpSocket0 3 7 0x01020304 80 100 (some (intf1500, 0x01020304)) 7 9 false true NX_STATUS.NX_SUCCESS).caller_suspended
      = false) :=
  ⟨⟨by decide, by decide, by decide⟩,
   C8_tcp_connect_ip_thread_no_suspend tcpSocket0 3 7 0x01020304 80 100 intf1500 0x01020304 7 9
     NX_STATUS.NX_SUCCESS (by decide) (by decide) (by decide)⟩


/-- Concatenating two 16-bit values by shift-or, under 32-bit truncation,
is exactly hi * 2^16 + lo. -/
theorem concat16 (r1 r2 : Nat) (h1 : r1 < 65536) (h2 : r2 < 65536) :
    u32 (u32 ((u32 r1) <<< NX_SHIFT_BY_16) ||| u32 r2) = 65536 * r1 + r2 := by
  have e1 : u32 r1 = r1 := Nat.mod_eq_of_lt (by omega)
  have e2 : u32 r2 = r2 := Nat.mod_eq_of_lt (by omega)
  have esh : (u32 r1) <<< NX_SHIFT_BY_16 = r1 * 65536 := by
    rw [e1]
    simp only [NX_SHIFT_BY_16, Nat.shiftLeft_eq]
  have emul : u32 (r1 * 65536) = r1 * 65536 := Nat.mod_eq_of_lt (by omega)
  rw [esh, emul, e2]
  have hzhi : ((r1 * 65536) ||| r2) >>> 16 = r1 := by
    rw [lor_shiftRight_distrib]
    have ha : (r1 * 65536) >>> 16 = r1 := by
      rw [Nat.shiftRight_eq_div_pow]
      omega
    have hb : r2 >>> 16 = 0 := by
      rw [Nat.shiftRight_eq_div_pow]
      have : (2 : Nat) ^ 16 = 65536 := by norm_num
      rw [this]
      omega
    rw [ha, hb, Nat.or_zero]
  have hzlo : ((r1 * 65536) ||| r2) &&& 65535 = r2 := by
    rw [lor_and_distrib, and_mask16, and_mask16]
    have ha : r1 * 65536 % 65536 = 0 := by omega
    have hb : r2 % 65536 = r2 := Nat.mod_eq_of_lt h2
    rw [ha, hb, Nat.zero_or]
  have hdiv : ((r1 * 65536) ||| r2) / 65536 = r1 := by
    have h := hzhi
    rw [Nat.shiftRight_eq_div_pow] at h
    have e : (2 : Nat) ^ 16 = 65536 := by norm_num
    rw [e] at h
    exact h
  have hmod : ((r1 * 65536) ||| r2) % 65536 = r2 := by
    rw [← and_mask16]
    exact hzlo
  have : (r1 * 65536) ||| r2 = 65536 * r1 + r2 := by omega
  rw [this]
  exact Nat.mod_eq_of_lt (by omega)

/-- C5: when connect reaches sequence-number initialization, a zero
tx_sequence is seeded with the concatenation of two 16-bit random draws
and a nonzero one with old + 0x10000 + a 16-bit draw; tx_sequence is then
incremented by 1 and the emitted SYN carries tx_sequence − 1 (the seeded
value), all modulo 2^32. -/
theorem C5_tcp_connect_sequence
    (socket : NX_TCP_SOCKET) (ac conns sip sport wait : Nat)
    (intf : NX_INTERFACE) (nh r1 r2 : Nat) (syn_est ipthr : Bool) (ss : NX_STATUS)
    (hbound : socket.nx_tcp_socket_bound_next ≠ 0)
    (hclosed : socket.nx_tcp_socket_state = TcpState.NX_TCP_CLOSED)
    (hmtu : ¬ intf.nx_interface_ip_mtu_size < NX_IP_HEADER_SIZE + NX_TCP_HEADER_SIZE)
    (h1 : r1 < 65536) (h2 : r2 < 65536) :
    (nx_tcp_client_socket_connect socket ac conns sip sport wait (some (intf, nh)) r1 r2 syn_est ipthr ss).socket.nx_tcp_socket_tx_sequence
      = ((if socket.nx_tcp_socket_tx_sequence = 0 then 65536 * r1 + r2
          else (socket.nx_tcp_socket_tx_sequence + 65536 + r1) % 4294967296) + 1) % 4294967296 ∧
    (nx_tcp_client_socket_connect socket ac conns sip sport wait (some (intf, nh)) r1 r2 syn_est ipthr ss).syn_sent_sequence
      = some (if socket.nx_tcp_socket_tx_sequence = 0 then 65536 * r1 + r2
              else (socket.nx_tcp_socket_tx_sequence + 65536 + r1) % 4294967296) := by
  have hc' : ¬(socket.nx_tcp_socket_state ≠ TcpState.NX_TCP_CLOSED) := by simp [hclosed]
  have e1 : u32 r1 = r1 := Nat.mod_eq_of_lt (by omega)
  simp only [nx_tcp_client_socket_connect, if_neg hbound, if_neg hc', if_neg hmtu]
  by_cases h0 : socket.nx_tcp_socket_tx_sequence = 0
  · simp only [h0, if_pos, concat16 r1 r2 h1 h2]
    constructor <;> split_ifs <;> simp only [u32, Option.some.injEq] <;> omega
  · simp only [if_neg h0, e1]
    constructor <;> split_ifs <;> simp only [u32, Option.some.injEq] <;> omega

/-- C5 witness: sequence seeding on a socket with tx_sequence = 100,
draws 7 and 9, evaluated concretely. -/
theorem C5_tcp_connect_sequence_witness :
    (tcpSocket0.nx_tcp_socket_bound_next ≠ 0 ∧
     tcpSocket0.nx_tcp_socket_state = TcpState.NX_TCP_CLOSED ∧
     ¬ intf1500.nx_interface_ip_mtu_size < NX_IP_HEADER_SIZE + NX_TCP_HEADER_SIZE ∧
     (7 : Nat) < 65536 ∧ (9 : Nat) < 65536) ∧
    ((nx_tcp_client_socket_connect tcpSocket0 3 7 0x01020304 80 0 (some (intf1500, 0x01020304)) 7 9 false false NX_STATUS.NX_SUCCESS).socket.nx_tcp_socket_tx_sequence
      = ((if tcpSocket0.nx_tcp_socket_tx_sequence = 0 then 65536 * 7 + 9
          else (tcpSocket0.nx_tcp_socket_tx_sequence + 65536 + 7) % 4294967296) + 1) % 4294967296 ∧
     (nx_tcp_client_socket_connect tcpSocket0 3 7 0x01020304 80 0 (some (intf1500, 0x01020304)) 7 9 false false NX_STATUS.NX_SUCCESS).syn_sent_sequence
      = some (if tcpSocket0.nx_tcp_socket_tx_sequence = 0 then 65536 * 7 + 9
              else (tcpSocket0.nx_tcp_socket_tx_sequence + 65536 + 7) % 4294967296)) :=
  ⟨⟨by decide, by decide, by decide, by decide, by decide⟩,
   C5_tcp_connect_sequence tcpSocket0 3 7 0x01020304 80 0 intf1500 0x01020304 7 9 false false
     NX_STATUS.NX_SUCCESS (by decide) (by decide) (by decide) (by decide) (by decide)⟩

/-- C1 counterexample: a connect that suspends and is woken with a
failure status returns an error and leaves the socket CLOSED, yet
connect_ip, connect_port and next_hop_address are not zeroed (they
retain the attempted connection's coordinates). -/
theorem C1_tcp_connect_error_rollback_counterexample :
    (nx_tcp_client_socket_connect tcpSocket0 3 7 0x01020304 80 100 (some (intf1500, 0x01020304)) 7 9 false false NX_STATUS.NX_NOT_CONNECTED).status
      ≠ NX_STATUS.NX_SUCCESS ∧
    (nx_tcp_client_socket_connect tcpSocket0 3 7 0x01020304 80 100 (some (intf1500, 0x01020304)) 7 9 false false NX_STATUS.NX_NOT_CONNECTED).socket.nx_tcp_socket_state
      = TcpState.NX_TCP_CLOSED ∧
    ¬ ((nx_tcp_client_socket_connect tcpSocket0 3 7 0x01020304 80 100 (some (intf1500, 0x01020304)) 7 9 false false NX_STATUS.NX_NOT_CONNECTED).socket.nx_tcp_socket_connect_ip = 0 ∧
       (nx_tcp_client_socket_connect tcpSocket0 3 7 0x01020304 80 100 (some (intf1500, 0x01020304)) 7 9 false false NX_STATUS.NX_NOT_CONNECTED).socket.nx_tcp_socket_connect_port = 0 ∧
       (nx_tcp_client_socket_connect tcpSocket0 3 7 0x01020304 80 100 (some (intf1500, 0x01020304)) 7 9 false false NX_STATUS.NX_NOT_CONNECTED).socket.nx_tcp_socket_next_hop_address = 0) := by
  decide

/-- C1 (amended): a connect entered on a bound CLOSED socket with zeroed
transient fields that fails in route-find or MTU validation leaves the
socket CLOSED with connect_ip, connect_port and next_hop_address zero; a
failure status delivered on wake after suspension leaves the socket
CLOSED but with connect_ip, connect_port and next_hop_address still
holding the attempted connection's values. -/
theorem C1_tcp_connect_error_rollback_amended
    (socket : NX_TCP_SOCKET) (ac conns sip sport wait : Nat)
    (r1 r2 : Nat) (ipthr : Bool) (ss : NX_STATUS)
    (hbound : socket.nx_tcp_socket_bound_next ≠ 0)
    (hclosed : socket.nx_tcp_socket_state = TcpState.NX_TCP_CLOSED)
    (hip0 : socket.nx_tcp_socket_connect_ip = 0)
    (hport0 : socket.nx_tcp_socket_connect_port = 0)
    (hnh0 : socket.nx_tcp_socket_next_hop_address = 0) :
    ((nx_tcp_client_socket_connect socket ac conns sip sport wait none r1 r2 false ipthr ss).status
        = NX_STATUS.NX_IP_ADDRESS_ERROR ∧
     (nx_tcp_client_socket_connect socket ac conns sip sport wait none r1 r2 false ipthr ss).socket.nx_tcp_socket_state
        = TcpState.NX_TCP_CLOSED ∧
     (nx_tcp_client_socket_connect socket ac conns sip sport wait none r1 r2 false ipthr ss).socket.nx_tcp_socket_connect_ip = 0 ∧
     (nx_tcp_client_socket_connect socket ac conns sip sport wait none r1 r2 false ipthr ss).socket.nx_tcp_socket_connect_port = 0 ∧
     (nx_tcp_client_socket_connect socket ac conns sip sport wait none r1 r2 false ipthr ss).socket.nx_tcp_socket_next_hop_address = 0) ∧
    (∀ (intf : NX_INTERFACE) (nh : Nat),
      intf.nx_interface_ip_mtu_size < NX_IP_HEADER_SIZE + NX_TCP_HEADER_SIZE →
      (nx_tcp_client_socket_connect socket ac conns sip sport wait (some (intf, nh)) r1 r2 false ipthr ss).status
         = NX_STATUS.NX_INVALID_INTERFACE ∧
      (nx_tcp_client_socket_connect socket ac conns sip sport wait (some (intf, nh)) r1 r2 false ipthr ss).socket.nx_tcp_socket_state
         = TcpState.NX_TCP_CLOSED ∧
      (nx_tcp_client_socket_connect socket ac conns sip sport wait (some (intf, nh)) r1 r2 false ipthr ss).socket.nx_tcp_socket_connect_ip = 0 ∧
      (nx_tcp_client_socket_connect socket ac conns sip sport wait (some (intf, nh)) r1 r2 false ipthr ss).socket.nx_tcp_socket_connect_port = 0 ∧
      (nx_tcp_client_socket_connect socket ac conns sip sport wait (some (intf, nh)) r1 r2 false ipthr ss).socket.nx_tcp_socket_next_hop_address = 0) ∧
    (∀ (intf : NX_INTERFACE) (nh : Nat),
      ¬ intf.nx_interface_ip_mtu_size < NX_IP_HEADER_SIZE + NX_TCP_HEADER_SIZE →
      wait ≠ 0 → ipthr = false → ss ≠ NX_STATUS.NX_SUCCESS →
      (nx_tcp_client_socket_connect socket ac conns sip sport wait (some (intf, nh)) r1 r2 false ipthr ss).status = ss ∧
      (nx_tcp_client_socket_connect socket ac conns sip sport wait (some (intf, nh)) r1 r2 false ipthr ss).socket.nx_tcp_socket_state
         = TcpState.NX_TCP_CLOSED ∧
      (nx_tcp_client_socket_connect socket ac conns sip sport wait (some (intf, nh)) r1 r2 false ipthr ss).socket.nx_tcp_socket_connect_ip = sip ∧
      (nx_tcp_client_socket_connect socket ac conns sip sport wait (some (intf, nh)) r1 r2 false ipthr ss).socket.nx_tcp_socket_connect_port = sport ∧
      (nx_tcp_client_socket_connect socket ac conns sip sport wait (some (intf, nh)) r1 r2 false ipthr ss).socket.nx_tcp_socket_next_hop_address = nh) := by
  have hc' : ¬(socket.nx_tcp_socket_state ≠ TcpState.NX_TCP_CLOSED) := by simp [hclosed]
  refine ⟨?_, ?_, ?_⟩
  · simp only [nx_tcp_client_socket_connect, if_neg hbound, if_neg hc']
    exact ⟨trivial, hclosed, hip0, hport0, hnh0⟩
  · intro intf nh hmtu
    simp only [nx_tcp_client_socket_connect, if_neg hbound, if_neg hc', if_pos hmtu]
    exact ⟨trivial, trivial, trivial, trivial, trivial⟩
  · intro intf nh hmtu hwait hipthr hss
    subst hipthr
    simp only [nx_tcp_client_socket_connect, if_neg hbound, if_neg hc', if_neg hmtu]
    split_ifs with hseed <;>
      simp_all

/-- C1 (amended) witness: the wake-failure arm evaluated on a concrete
socket, interface and failure status. -/
theorem C1_tcp_connect_error_rollback_amended_witness :
    (tcpSocket0.nx_tcp_socket_bound_next ≠ 0 ∧
     tcpSocket0.nx_tcp_socket_state = TcpState.NX_TCP_CLOSED ∧
     tcpSocket0.nx_tcp_socket_connect_ip = 0 ∧
     tcpSocket0.nx_tcp_socket_connect_port = 0 ∧
     tcpSocket0.nx_tcp_socket_next_hop_address = 0) ∧
    ((nx_tcp_client_socket_connect tcpSocket0 3 7 0x01020304 80 100 (some (intf1500, 0x05060708)) 7 9 false false NX_STATUS.NX_NOT_CONNECTED).status
       = NX_STATUS.NX_NOT_CONNECTED ∧
     (nx_tcp_client_socket_connect tcpSocket0 3 7 0x01020304 80 100 (some (intf1500, 0x05060708)) 7 9 false false NX_STATUS.NX_NOT_CONNECTED).socket.nx_tcp_socket_state
       = TcpState.NX_TCP_CLOSED ∧
     (nx_tcp_client_socket_connect tcpSocket0 3 7 0x01020304 80 100 (some (intf1500, 0x05060708)) 7 9 false false NX_STATUS.NX_NOT_CONNECTED).socket.nx_tcp_socket_connect_ip
       = 0x01020304 ∧
     (nx_tcp_client_socket_connect tcpSocket0 3 7 0x01020304 80 100 (some (intf1500, 0x05060708)) 7 9 false false NX_STATUS.NX_NOT_CONNECTED).socket.nx_tcp_socket_connect_port
       = 80 ∧
     (nx_tcp_client_socket_connect tcpSocket0 3 7 0x01020304 80 100 (some (intf1500, 0x05060708)) 7 9 false false NX_STATUS.NX_NOT_CONNECTED).socket.nx_tcp_socket_next_hop_address
       = 0x05060708) :=
  ⟨⟨by decide, by decide, by decide, by decide, by decide⟩,
   (C1_tcp_connect_error_rollback_amended tcpSocket0 3 7 0x01020304 80 100 7 9 false
      NX_STATUS.NX_NOT_CONNECTED (by decide) (by decide) (by decide) (by decide) (by decide)).2.2
     intf1500 0x05060708 (by decide) (by decide) rfl (by decide)⟩

/- ===================== Helper lemmas: ring paths ===================== -/

theorem nextPathB_nil (f : Nat → Nat) (a b : Nat) :
    nextPathB f a [] b = true ↔ a = b := by
  simp [nextPathB]

theorem nextPathB_cons (f : Nat → Nat) (x : Nat) (xs : List Nat) (a b : Nat) :
    nextPathB f a (x :: xs) b = true ↔ x = a ∧ nextPathB f (f a) xs b = true := by
  simp [nextPathB, Bool.and_eq_true]

theorem nextPathB_append (f : Nat → Nat) (l₁ l₂ : List Nat) (a b : Nat) :
    nextPathB f a (l₁ ++ l₂) b = true ↔
      ∃ m, nextPathB f a l₁ m = true ∧ nextPathB f m l₂ b = true := by
  induction l₁ generalizing a with
  | nil =>
    simp only [List.nil_append, nextPathB_nil]
    constructor
    · intro h
      exact ⟨a, rfl, h⟩
    · rintro ⟨m, hm, h2⟩
      subst hm
      exact h2
  | cons x xs ih =>
    simp only [List.cons_append, nextPathB_cons, ih]
    constructor
    · rintro ⟨hx, m, h1, h2⟩
      exact ⟨m, ⟨hx, h1⟩, h2⟩
    · rintro ⟨m, ⟨hx, h1⟩, h2⟩
      exact ⟨hx, m, h1, h2⟩

theorem nextPathB_frame (f f' : Nat → Nat) (l : List Nat) (a b : Nat)
    (hff : ∀ x ∈ l, f' x = f x) :
    nextPathB f' a l b = nextPathB f a l b := by
  induction l generalizing a with
  | nil => rfl
  | cons x xs ih =>
    simp only [nextPathB]
    by_cases hx : x = a
    · subst hx
      rw [hff x (by simp)]
      rw [ih (f x) (fun y hy => hff y (by simp [hy]))]
    · have : (x == a) = false := by simp [hx]
      rw [this, Bool.false_and, Bool.false_and]

theorem nextPathB_next_mem (f : Nat → Nat) (l : List Nat) (a b : Nat)
    (h : nextPathB f a l b = true) :
    ∀ x ∈ l, f x ∈ l ∨ f x = b := by
  induction l generalizing a with
  | nil => intro x hx; cases hx
  | cons y ys ih =>
    rw [nextPathB_cons] at h
    obtain ⟨hy, hrest⟩ := h
    subst hy
    intro x hx
    rcases List.mem_cons.mp hx with hxa | hxs
    · subst hxa
      cases ys with
      | nil =>
        rw [nextPathB_nil] at hrest
        right
        exact hrest
      | cons z zs =>
        left
        rw [nextPathB_cons] at hrest
        obtain ⟨hz, _⟩ := hrest
        subst hz
        simp
    · rcases ih (f y) hrest x hxs with hmem | hb
      · left
        exact List.mem_cons_of_mem _ hmem
      · right
        exact hb

theorem isRing_destruct (next prev : Nat → Nat) (h : Nat) (l : List Nat)
    (hr : isRing next prev h l) : ∃ t, l = h :: t := by
  obtain ⟨hne, hhead, -, -, -, -⟩ := hr
  cases l with
  | nil => exact absurd rfl hne
  | cons a t =>
    simp only [List.head?_cons, Option.some.injEq] at hhead
    exact ⟨t, by rw [hhead]⟩

theorem isRing_next_mem (next prev : Nat → Nat) (h : Nat) (l : List Nat)
    (hr : isRing next prev h l) : ∀ x ∈ l, next x ∈ l := by
  obtain ⟨t, ht⟩ := isRing_destruct next prev h l hr
  obtain ⟨-, -, -, -, hnext, -⟩ := hr
  intro x hx
  rcases nextPathB_next_mem next l h h hnext x hx with hm | hb
  · exact hm
  · rw [hb, ht]
    simp

theorem isRing_next_ne_zero (next prev : Nat → Nat) (h : Nat) (l : List Nat)
    (hr : isRing next prev h l) : ∀ x ∈ l, next x ≠ 0 := by
  intro x hx
  have hmem := isRing_next_mem next prev h l hr x hx
  have h0 : 0 ∉ l := hr.2.2.2.1
  intro hz
  rw [hz] at hmem
  exact h0 hmem

theorem isRing_not_mem_of_next_zero (next prev : Nat → Nat) (h : Nat) (l : List Nat)
    (hr : isRing next prev h l) (s : Nat) (hs : next s = 0) : s ∉ l := by
  intro hmem
  exact isRing_next_ne_zero next prev h l hr s hmem hs

theorem isRing_congr (next prev next' prev' : Nat → Nat) (h : Nat) (l : List Nat)
    (hr : isRing next prev h l)
    (hn : ∀ x ∈ l, next' x = next x) (hp : ∀ x ∈ l, prev' x = prev x) :
    isRing next' prev' h l := by
  obtain ⟨t, ht⟩ := isRing_destruct next prev h l hr
  obtain ⟨hne, hhead, hnd, h0, hnext, hprev⟩ := hr
  refine ⟨hne, hhead, hnd, h0, ?_, ?_⟩
  · rw [nextPathB_frame next next' l h h hn]
    exact hnext
  · have hsub : ∀ x ∈ h :: l.tail.reverse, x ∈ l := by
      intro x hx
      rcases List.mem_cons.mp hx with hxh | hxt
      · rw [hxh, ht]
        simp
      · exact List.mem_of_mem_tail (List.mem_reverse.mp hxt)
    rw [nextPathB_frame prev prev' (h :: l.tail.reverse) h h (fun x hx => hp x (hsub x hx))]
    exact hprev

theorem walkSearch_no_match_aux (socks : Nat → NX_UDP_SOCKET) (p h : Nat) :
    ∀ (l : List Nat) (a fuel : Nat),
      nextPathB (fun i => (socks i).nx_udp_socket_bound_next) a l h = true →
      (∀ x ∈ l, (socks x).nx_udp_socket_port ≠ p) →
      h ∉ l.tail → l ≠ [] → l.length ≤ fuel →
      walkSearch socks p h a fuel = h := by
  intro l
  induction l with
  | nil =>
    intro a fuel _ _ _ hne _
    exact absurd rfl hne
  | cons x xs ih =>
    intro a fuel hpath hports hht _ hfuel
    rw [nextPathB_cons] at hpath
    obtain ⟨hx, hrest⟩ := hpath
    subst hx
    cases fuel with
    | zero => simp at hfuel
    | succ fuel =>
      simp only [walkSearch]
      rw [if_neg (hports x (by simp))]
      cases xs with
      | nil =>
        rw [nextPathB_nil] at hrest
        simp only [hrest, if_pos]
      | cons y ys =>
        have hy' := hrest
        rw [nextPathB_cons] at hy'
        obtain ⟨hy, -⟩ := hy'
        have hnh : (socks x).nx_udp_socket_bound_next ≠ h := by
          intro hcontra
          apply hht
          have hyh : y = h := by rw [hy, hcontra]
          simp only [List.tail_cons]
          rw [← hyh]
          simp
        rw [if_neg hnh]
        refine ih ((socks x).nx_udp_socket_bound_next) fuel hrest ?_ ?_ (by simp) ?_
        · intro z hz
          exact hports z (List.mem_cons_of_mem _ hz)
        · intro hcontra
          apply hht
          simp only [List.tail_cons]
          exact List.mem_cons_of_mem _ hcontra
        · simp only [List.length_cons] at hfuel ⊢
          omega

theorem walkSearch_match_aux (socks : Nat → NX_UDP_SOCKET) (p h : Nat) :
    ∀ (l : List Nat) (a fuel : Nat),
      nextPathB (fun i => (socks i).nx_udp_socket_bound_next) a l h = true →
      (∃ x ∈ l, (socks x).nx_udp_socket_port = p) →
      h ∉ l.tail → l.length ≤ fuel →
      walkSearch socks p h a fuel ∈ l ∧
        (socks (walkSearch socks p h a fuel)).nx_udp_socket_port = p := by
  intro l
  induction l with
  | nil =>
    intro a fuel _ hex _ _
    obtain ⟨x, hx, -⟩ := hex
    cases hx
  | cons x xs ih =>
    intro a fuel hpath hex hht hfuel
    rw [nextPathB_cons] at hpath
    obtain ⟨hx, hrest⟩ := hpath
    subst hx
    cases fuel with
    | zero => simp at hfuel
    | succ fuel =>
      by_cases hpx : (socks x).nx_udp_socket_port = p
      · simp only [walkSearch, if_pos hpx]
        exact ⟨by simp, hpx⟩
      · simp only [walkSearch, if_neg hpx]
        obtain ⟨z, hz, hzp⟩ := hex
        rcases List.mem_cons.mp hz with hzx | hzxs
        · subst hzx
          exact absurd hzp hpx
        · cases xs with
          | nil => cases hzxs
          | cons y ys =>
            have hy' := hrest
            rw [nextPathB_cons] at hy'
            obtain ⟨hy, -⟩ := hy'
            have hnh : (socks x).nx_udp_socket_bound_next ≠ h := by
              intro hcontra
              apply hht
              have hyh : y = h := by rw [hy, hcontra]
              simp only [List.tail_cons]
              rw [← hyh]
              simp
            rw [if_neg hnh]
            have hres := ih ((socks x).nx_udp_socket_bound_next) fuel hrest
              ⟨z, hzxs, hzp⟩
              (by
                intro hcontra
                apply hht
                simp only [List.tail_cons]
                exact List.mem_cons_of_mem _ hcontra)
              (by simp only [List.length_cons] at hfuel ⊢; omega)
            exact ⟨List.mem_cons_of_mem _ hres.1, hres.2⟩

theorem walk_ring_no_match (socks : Nat → NX_UDP_SOCKET) (prev : Nat → Nat)
    (p h : Nat) (l : List Nat) (fuel : Nat)
    (hr : isRing (fun i => (socks i).nx_udp_socket_bound_next) prev h l)
    (hports : ∀ x ∈ l, (socks x).nx_udp_socket_port ≠ p)
    (hfuel : l.length ≤ fuel) :
    walkSearch socks p h h fuel = h := by
  obtain ⟨t, ht⟩ := isRing_destruct _ prev h l hr
  obtain ⟨hne, -, hnd, -, hnext, -⟩ := hr
  refine walkSearch_no_match_aux socks p h l h fuel hnext hports ?_ hne hfuel
  rw [ht]
  simp only [List.tail_cons]
  rw [ht] at hnd
  exact (List.nodup_cons.mp hnd).1

theorem walk_ring_match (socks : Nat → NX_UDP_SOCKET) (prev : Nat → Nat)
    (p h : Nat) (l : List Nat) (fuel : Nat)
    (hr : isRing (fun i => (socks i).nx_udp_socket_bound_next) prev h l)
    (hex : ∃ x ∈ l, (socks x).nx_udp_socket_port = p)
    (hfuel : l.length ≤ fuel) :
    walkSearch socks p h h fuel ∈ l ∧
      (socks (walkSearch socks p h h fuel)).nx_udp_socket_port = p := by
  obtain ⟨t, ht⟩ := isRing_destruct _ prev h l hr
  obtain ⟨-, -, hnd, -, hnext, -⟩ := hr
  refine walkSearch_match_aux socks p h l h fuel hnext hex ?_ hfuel
  rw [ht]
  simp only [List.tail_cons]
  rw [ht] at hnd
  exact (List.nodup_cons.mp hnd).1

/-- Inserting a fresh socket at the end of a ring (the source's splice:
`s.next := head; s.prev := head.prev; head.prev.next := s;
head.prev := s`) yields a ring on `l ++ [s]`. -/
theorem ring_splice (next prev next' prev' : Nat → Nat) (h s : Nat) (l : List Nat)
    (hr : isRing next prev h l)
    (hsl : s ∉ l) (hs0 : s ≠ 0)
    (hn' : ∀ x, next' x = if x = s then h else if x = prev h then s else next x)
    (hp' : ∀ x, prev' x = if x = s then prev h else if x = h then s else prev x) :
    isRing next' prev' h (l ++ [s]) := by
  obtain ⟨t, ht⟩ := isRing_destruct next prev h l hr
  obtain ⟨hne, hhead, hnd, h0, hnext, hprev⟩ := hr
  subst ht
  have hhs : h ≠ s := fun hc => hsl (hc ▸ List.mem_cons_self h t)
  have hnd' : (h :: t).Nodup → h ∉ t := fun hd => (List.nodup_cons.mp hd).1
  have hht : h ∉ t := hnd' hnd
  rcases List.eq_nil_or_concat t with htnil | ⟨t₀, z, hteq⟩
  · subst htnil
    have hnh : next h = h := by
      rw [nextPathB_cons] at hnext
      rw [nextPathB_nil] at hnext
      exact hnext.2
    have hph : prev h = h := by
      simp only [List.tail_cons, List.reverse_nil] at hprev
      rw [nextPathB_cons, nextPathB_nil] at hprev
      exact hprev.2
    refine ⟨by simp, by simp, ?_, ?_, ?_, ?_⟩
    · simp [hhs, Ne.symm hhs]
    · intro hc
      rw [List.singleton_append] at hc
      rcases List.mem_cons.mp hc with h1 | h1
      · exact h0 (by simp [h1])
      · rw [List.mem_singleton] at h1
        exact hs0 h1.symm
    · simp only [List.singleton_append]
      rw [nextPathB_cons]
      refine ⟨rfl, ?_⟩
      have e1 : next' h = s := by
        rw [hn' h, if_neg hhs, hph, if_pos rfl]
      rw [e1, nextPathB_cons]
      refine ⟨rfl, ?_⟩
      have e2 : next' s = h := by
        rw [hn' s, if_pos rfl]
      rw [e2, nextPathB_nil]
    · simp only [List.singleton_append, List.tail_cons, List.reverse_cons, List.reverse_nil,
        List.nil_append]
      rw [nextPathB_cons]
      refine ⟨rfl, ?_⟩
      have e1 : prev' h = s := by
        rw [hp' h, if_neg hhs, if_pos rfl]
      rw [e1, nextPathB_cons]
      refine ⟨rfl, ?_⟩
      have e2 : prev' s = h := by
        rw [hp' s, if_pos rfl, hph]
      rw [e2, nextPathB_nil]
  · rw [List.concat_eq_append] at hteq
    subst hteq
    have hzl : z ∈ h :: (t₀ ++ [z]) := by simp
    have hzs : z ≠ s := fun hc => hsl (hc ▸ hzl)
    have hzh : z ≠ h := by
      intro hc
      exact hht (by simp [hc])
    have hz0 : z ≠ 0 := by
      intro hc
      exact h0 (hc ▸ hzl)
    have hzt0 : z ∉ t₀ := by
      have := List.nodup_cons.mp hnd
      have hnd2 := this.2
      rw [List.nodup_append] at hnd2
      intro hc
      exact hnd2.2.2 hc (by simp)
    -- decompose the next path: h :: t₀ ++ [z] = (h :: t₀) ++ [z]
    have hnext' : nextPathB next h ((h :: t₀) ++ [z]) h = true := by
      simpa using hnext
    rw [nextPathB_append] at hnext'
    obtain ⟨m, hm1, hm2⟩ := hnext'
    rw [nextPathB_cons, nextPathB_nil] at hm2
    obtain ⟨hmz, hnzh⟩ := hm2
    subst hmz
    -- decompose the prev path
    have hprev' := hprev
    simp only [List.tail_cons, List.reverse_append, List.reverse_cons, List.reverse_nil,
      List.nil_append, List.singleton_append] at hprev'
    rw [nextPathB_cons] at hprev'
    obtain ⟨-, hprev2⟩ := hprev'
    rw [nextPathB_cons] at hprev2
    obtain ⟨hzc, hprev3⟩ := hprev2
    -- hzc : z = prev h
    refine ⟨by simp, by simp, ?_, ?_, ?_, ?_⟩
    · rw [List.nodup_append]
      refine ⟨hnd, List.nodup_singleton s, ?_⟩
      intro a ha hb
      rw [List.mem_singleton] at hb
      subst hb
      exact hsl ha
    · intro hc
      rw [List.mem_append] at hc
      rcases hc with hc | hc
      · exact h0 hc
      · rw [List.mem_singleton] at hc
        exact hs0 hc.symm
    · have assoc : (h :: (t₀ ++ [z])) ++ [s] = (h :: t₀) ++ ([z] ++ [s]) := by simp
      rw [assoc, nextPathB_append]
      refine ⟨z, ?_, ?_⟩
      · rw [nextPathB_frame next next' (h :: t₀) h z ?_]
        · exact hm1
        · intro x hx
          have hxs : x ≠ s := fun hc => hsl (hc ▸ (by
            rcases List.mem_cons.mp hx with h1 | h1
            · simp [h1]
            · simp [List.mem_cons_of_mem, List.mem_append_left _ h1]))
          have hxz : x ≠ prev h := by
            rw [← hzc]
            intro hc
            subst hc
            rcases List.mem_cons.mp hx with h1 | h1
            · exact hzh h1
            · exact hzt0 h1
          rw [hn' x, if_neg hxs, if_neg hxz]
      · simp only [List.singleton_append]
        rw [nextPathB_cons]
        refine ⟨rfl, ?_⟩
        have e1 : next' z = s := by
          rw [hn' z, if_neg hzs, if_pos hzc]
        rw [e1, nextPathB_cons]
        refine ⟨rfl, ?_⟩
        have e2 : next' s = h := by
          rw [hn' s, if_pos rfl]
        rw [e2, nextPathB_nil]
    · simp only [List.cons_append, List.tail_cons, List.reverse_append, List.reverse_cons,
        List.reverse_nil, List.nil_append, List.singleton_append, List.append_assoc]
      -- target list is h :: s :: z :: t₀.reverse
      rw [nextPathB_cons]
      refine ⟨rfl, ?_⟩
      have e1 : prev' h = s := by
        rw [hp' h, if_neg hhs, if_pos rfl]
      rw [e1, nextPathB_cons]
      refine ⟨rfl, ?_⟩
      have e2 : prev' s = z := by
        rw [hp' s, if_pos rfl, ← hzc]
      rw [e2, nextPathB_cons]
      refine ⟨rfl, ?_⟩
      have e3 : prev' z = prev z := by
        rw [hp' z, if_neg hzs, if_neg hzh]
      rw [e3]
      have hframe : nextPathB prev' (prev z) t₀.reverse h = nextPathB prev (prev z) t₀.reverse h := by
        apply nextPathB_frame
        intro x hx
        rw [List.mem_reverse] at hx
        have hxs : x ≠ s := fun hc => hsl (hc ▸ (by
          simp [List.mem_cons_of_mem, List.mem_append_left _ hx]))
        have hxh : x ≠ h := by
          intro hc
          subst hc
          exact hht (List.mem_append_left _ hx)
        rw [hp' x, if_neg hxs, if_neg hxh]
      rw [hframe, hzc]
      exact hprev3

/- ===================== Helper lemmas: bind paths ===================== -/

theorem bind_unfold (w : UdpWorld) (mask fuel sid tid p wait : Nat) (fp : Option Nat)
    (ws : NX_STATUS)
    (hs_next : (w.sockets sid).nx_udp_socket_bound_next = 0)
    (hs_bip : (w.sockets sid).nx_udp_socket_bind_in_progress = 0)
    (hp0 : p ≠ 0) :
    nx_udp_socket_bind w mask fuel sid tid p wait fp ws =
      udp_bind_with_search
        (updSocket w sid { w.sockets sid with nx_udp_socket_port := p })
        (udp_port_index mask p)
        (if w.nx_ip_udp_port_table (udp_port_index mask p) ≠ 0 then
           walkSearch (updSocket w sid { w.sockets sid with nx_udp_socket_port := p }).sockets p
             (w.nx_ip_udp_port_table (udp_port_index mask p))
             (w.nx_ip_udp_port_table (udp_port_index mask p)) fuel
         else 0)
        sid tid p wait ws := by
  simp only [nx_udp_socket_bind, NX_ANY_PORT]
  rw [if_neg (by push_neg; exact ⟨hs_next, hs_bip⟩), if_neg hp0]
  simp only [updSocket]

theorem with_search_unavailable (w1 : UdpWorld) (idx f sid tid p : Nat) (ws : NX_STATUS)
    (hf0 : f ≠ 0) (hfp : (w1.sockets f).nx_udp_socket_port = p) :
    udp_bind_with_search w1 idx f sid tid p 0 ws =
      ⟨NX_STATUS.NX_PORT_UNAVAILABLE, w1, false⟩ := by
  simp only [udp_bind_with_search]
  rw [if_neg (by push_neg; exact ⟨hf0, hfp⟩), if_neg (by simp)]

theorem with_search_suspend (w1 : UdpWorld) (idx f sid tid p wait : Nat) (ws : NX_STATUS)
    (hf0 : f ≠ 0) (hfp : (w1.sockets f).nx_udp_socket_port = p) (hwait : wait ≠ 0) :
    udp_bind_with_search w1 idx f sid tid p wait ws =
      ⟨ws, udp_bind_suspend w1 f sid tid wait, true⟩ := by
  simp only [udp_bind_with_search]
  rw [if_neg (by push_neg; exact ⟨hf0, hfp⟩), if_pos hwait]

theorem with_search_available (w1 : UdpWorld) (idx f sid tid p wait : Nat) (ws : NX_STATUS)
    (h : f = 0 ∨ (w1.sockets f).nx_udp_socket_port ≠ p) :
    udp_bind_with_search w1 idx f sid tid p wait ws =
      ⟨NX_STATUS.NX_SUCCESS, udp_bind_splice w1 idx f sid, false⟩ := by
  simp only [udp_bind_with_search]
  rw [if_pos h]

theorem updSocket_sockets (w : UdpWorld) (i : Nat) (s : NX_UDP_SOCKET) (j : Nat) :
    (updSocket w i s).sockets j = if j = i then s else w.sockets j := rfl

theorem updSocket_table (w : UdpWorld) (i : Nat) (s : NX_UDP_SOCKET) :
    (updSocket w i s).nx_ip_udp_port_table = w.nx_ip_udp_port_table := rfl

theorem updSocket_threads (w : UdpWorld) (i : Nat) (s : NX_UDP_SOCKET) :
    (updSocket w i s).threads = w.threads := rfl

theorem updThread_sockets (w : UdpWorld) (i : Nat) (t : TX_THREAD) :
    (updThread w i t).sockets = w.sockets := rfl

theorem updThread_table (w : UdpWorld) (i : Nat) (t : TX_THREAD) :
    (updThread w i t).nx_ip_udp_port_table = w.nx_ip_udp_port_table := rfl

theorem updTable_sockets (w : UdpWorld) (i v : Nat) :
    (updTable w i v).sockets = w.sockets := rfl

theorem updTable_table (w : UdpWorld) (i v j : Nat) :
    (updTable w i v).nx_ip_udp_port_table j = if j = i then v else w.nx_ip_udp_port_table j := rfl

theorem udp_bind_splice_empty_fields (w1 : UdpWorld) (idx sid : Nat) :
    (∀ i, (udp_bind_splice w1 idx 0 sid).nx_ip_udp_port_table i =
       if i = idx then sid else w1.nx_ip_udp_port_table i) ∧
    (∀ x, bound_next_of (udp_bind_splice w1 idx 0 sid) x =
       if x = sid then sid else bound_next_of w1 x) ∧
    (∀ x, bound_prev_of (udp_bind_splice w1 idx 0 sid) x =
       if x = sid then sid else bound_prev_of w1 x) ∧
    (∀ x, ((udp_bind_splice w1 idx 0 sid).sockets x).nx_udp_socket_port =
       (w1.sockets x).nx_udp_socket_port) := by
  refine ⟨?_, ?_, ?_, ?_⟩ <;> intro x <;>
    simp only [udp_bind_splice, bound_next_of, bound_prev_of, updSocket_sockets, updSocket_table,
      updTable_sockets, updTable_table, ne_eq, not_true_eq_false, if_false] <;>
    split_ifs <;> simp_all

set_option maxRecDepth 8000 in
theorem udp_bind_splice_nonempty_table (w1 : UdpWorld) (idx h sid : Nat)
    (hne : h ≠ 0) :
    ∀ i, (udp_bind_splice w1 idx h sid).nx_ip_udp_port_table i = w1.nx_ip_udp_port_table i := by
  intro i
  simp only [udp_bind_splice, if_pos hne, updSocket_table]

set_option maxRecDepth 8000 in
theorem udp_bind_splice_nonempty_next (w1 : UdpWorld) (idx h sid : Nat)
    (hne : h ≠ 0) (hh : w1.nx_ip_udp_port_table idx = h) (hhsid : h ≠ sid)
    (hcsid : (w1.sockets h).nx_udp_socket_bound_previous ≠ sid) :
    ∀ x, bound_next_of (udp_bind_splice w1 idx h sid) x =
       if x = sid then h
       else if x = (w1.sockets h).nx_udp_socket_bound_previous then sid
       else bound_next_of w1 x := by
  intro x
  simp only [udp_bind_splice, if_pos hne, bound_next_of, updSocket_sockets, updSocket_table, hh,
    if_neg hhsid, if_neg hcsid, ite_true, ite_false]
  split_ifs <;> subst_vars <;> first | rfl | omega

set_option maxRecDepth 8000 in
theorem udp_bind_splice_nonempty_prev (w1 : UdpWorld) (idx h sid : Nat)
    (hne : h ≠ 0) (hh : w1.nx_ip_udp_port_table idx = h) (hhsid : h ≠ sid)
    (hcsid : (w1.sockets h).nx_udp_socket_bound_previous ≠ sid) :
    ∀ x, bound_prev_of (udp_bind_splice w1 idx h sid) x =
       if x = sid then (w1.sockets h).nx_udp_socket_bound_previous
       else if x = h then sid
       else bound_prev_of w1 x := by
  intro x
  simp only [udp_bind_splice, if_pos hne, bound_prev_of, updSocket_sockets, updSocket_table, hh,
    if_neg hhsid, if_neg hcsid, ite_true, ite_false]
  split_ifs <;> subst_vars <;> first | rfl | omega

set_option maxRecDepth 8000 in
theorem udp_bind_splice_nonempty_port (w1 : UdpWorld) (idx h sid : Nat)
    (hne : h ≠ 0) (hh : w1.nx_ip_udp_port_table idx = h) (hhsid : h ≠ sid)
    (hcsid : (w1.sockets h).nx_udp_socket_bound_previous ≠ sid) :
    ∀ x, ((udp_bind_splice w1 idx h sid).sockets x).nx_udp_socket_port =
       (w1.sockets x).nx_udp_socket_port := by
  intro x
  simp only [udp_bind_splice, if_pos hne, updSocket_sockets, updSocket_table, hh,
    if_neg hhsid, if_neg hcsid, ite_true, ite_false]
  split_ifs <;> subst_vars <;> first | rfl | omega | (dsimp only; congr 2; omega) | (congr 2; omega)

set_option maxRecDepth 8000 in
theorem udp_bind_suspend_fields (w1 : UdpWorld) (f sid tid wait : Nat) (hfsid : f ≠ sid) :
    (∀ i, (udp_bind_suspend w1 f sid tid wait).nx_ip_udp_port_table i =
       w1.nx_ip_udp_port_table i) ∧
    (((udp_bind_suspend w1 f sid tid wait).sockets sid).nx_udp_socket_port =
       (w1.sockets sid).nx_udp_socket_port ∧
     ((udp_bind_suspend w1 f sid tid wait).sockets sid).nx_udp_socket_bound_next =
       (w1.sockets sid).nx_udp_socket_bound_next ∧
     ((udp_bind_suspend w1 f sid tid wait).sockets sid).nx_udp_socket_bound_previous = f ∧
     ((udp_bind_suspend w1 f sid tid wait).sockets sid).nx_udp_socket_bind_in_progress = tid) ∧
    (∀ x, x ≠ sid →
      (((udp_bind_suspend w1 f sid tid wait).sockets x).nx_udp_socket_bound_next =
         (w1.sockets x).nx_udp_socket_bound_next ∧
       ((udp_bind_suspend w1 f sid tid wait).sockets x).nx_udp_socket_bound_previous =
         (w1.sockets x).nx_udp_socket_bound_previous ∧
       ((udp_bind_suspend w1 f sid tid wait).sockets x).nx_udp_socket_port =
         (w1.sockets x).nx_udp_socket_port)) := by
  refine ⟨?_, ?_, ?_⟩
  · intro i
    simp only [udp_bind_suspend, updThread_sockets, updThread_table, updSocket_sockets,
      updSocket_table]
    split_ifs <;> rfl
  · simp only [udp_bind_suspend, updThread_sockets, updThread_table, updSocket_sockets,
      updSocket_table, ite_true, ite_false, if_neg hfsid, if_neg (Ne.symm hfsid)]
    split_ifs <;> subst_vars <;>
      (try simp only [updThread_sockets, updThread_table, updSocket_sockets,
        updSocket_table, ite_true, ite_false, if_neg hfsid, if_neg (Ne.symm hfsid)]) <;>
      first | rfl | trivial | omega | (refine ⟨?_, ?_, ?_, ?_⟩ <;> first | rfl | trivial | omega)
  · intro x hx
    simp only [udp_bind_suspend, updThread_sockets, updThread_table, updSocket_sockets,
      updSocket_table, ite_true, ite_false, if_neg hfsid, if_neg (Ne.symm hfsid), if_neg hx]
    split_ifs <;> subst_vars <;>
      (try simp only [updThread_sockets, updThread_table, updSocket_sockets,
        updSocket_table, ite_true, ite_false, if_neg hfsid, if_neg (Ne.symm hfsid), if_neg hx]) <;>
      first | rfl | trivial | omega |
        (refine ⟨?_, ?_, ?_⟩ <;>
          first | rfl | trivial | omega | (split_ifs <;> first | rfl | trivial | omega))

theorem udp_port_index_le (mask p : Nat) : udp_port_index mask p ≤ mask := by
  simp only [udp_port_index]
  exact Nat.and_le_right

theorem isRing_prev_mem (next prev : Nat → Nat) (h : Nat) (l : List Nat)
    (hr : isRing next prev h l) : ∀ x ∈ l, prev x ∈ l := by
  obtain ⟨t, ht⟩ := isRing_destruct next prev h l hr
  obtain ⟨-, -, -, -, -, hprev⟩ := hr
  intro x hx
  have hmem : x ∈ h :: l.tail.reverse := by
    rw [ht] at hx ⊢
    simp only [List.tail_cons]
    rcases List.mem_cons.mp hx with h1 | h1
    · simp [h1]
    · simp [List.mem_reverse, h1]
  have hh : h ∈ l := by
    rw [ht]
    simp
  rcases nextPathB_next_mem prev (h :: l.tail.reverse) h h hprev x hmem with hm | hb
  · rcases List.mem_cons.mp hm with h1 | h1
    · rw [h1]
      exact hh
    · rw [ht]
      rw [ht] at h1
      simp only [List.tail_cons, List.mem_reverse] at h1
      exact List.mem_cons_of_mem _ h1
  · rw [hb]
    exact hh

theorem tableInv_not_mem_of_unbound (w : UdpWorld) (mask : Nat) (rep : Nat → List Nat)
    (hInv : TableInv w mask rep) (sid : Nat)
    (hs : (w.sockets sid).nx_udp_socket_bound_next = 0) :
    ∀ i, i ≤ mask → sid ∉ rep i := by
  intro i hi
  have hh := hInv.1 i hi
  by_cases ht : w.nx_ip_udp_port_table i = 0
  · rw [if_pos ht] at hh
    rw [hh]
    exact List.not_mem_nil sid
  · rw [if_neg ht] at hh
    exact isRing_not_mem_of_next_zero _ _ _ _ hh sid hs

theorem tableInv_frame (w w' : UdpWorld) (mask : Nat) (rep : Nat → List Nat)
    (hInv : TableInv w mask rep)
    (htab : ∀ i, i ≤ mask → w'.nx_ip_udp_port_table i = w.nx_ip_udp_port_table i)
    (hfields : ∀ i, i ≤ mask → ∀ x ∈ rep i,
       bound_next_of w' x = bound_next_of w x ∧ bound_prev_of w' x = bound_prev_of w x ∧
       (w'.sockets x).nx_udp_socket_port = (w.sockets x).nx_udp_socket_port) :
    TableInv w' mask rep := by
  obtain ⟨hheads, hhash, hdisj⟩ := hInv
  refine ⟨?_, ?_, hdisj⟩
  · intro i hi
    rw [htab i hi]
    have hh := hheads i hi
    by_cases ht : w.nx_ip_udp_port_table i = 0
    · rw [if_pos ht] at hh ⊢
      exact hh
    · rw [if_neg ht] at hh ⊢
      exact isRing_congr _ _ _ _ _ _ hh
        (fun x hx => (hfields i hi x hx).1)
        (fun x hx => (hfields i hi x hx).2.1)
  · intro i hi x hx
    rw [(hfields i hi x hx).2.2]
    exact hhash i hi x hx

/-- C4 (amended): a UDP bind on an unbound socket with `wait_option = 0` whose
requested port is already held by a socket in the target bucket returns
`NX_PORT_UNAVAILABLE` and leaves the port table and every other socket
unchanged, with the binding socket's `bound_next` and `bind_in_progress`
still null — but the port number recorded at the top of the call is not
rolled back: the socket keeps `nx_udp_socket_port = p`. -/
theorem C4_udp_bind_collision_rollback_amended
    (w : UdpWorld) (mask fuel sid tid p : Nat) (rep : Nat → List Nat) (fp : Option Nat)
    (ws : NX_STATUS)
    (hInv : TableInv w mask rep)
    (hs_next : (w.sockets sid).nx_udp_socket_bound_next = 0)
    (hs_bip : (w.sockets sid).nx_udp_socket_bind_in_progress = 0)
    (hp0 : p ≠ 0)
    (howner : ∃ x ∈ rep (udp_port_index mask p), (w.sockets x).nx_udp_socket_port = p)
    (hfuel : (rep (udp_port_index mask p)).length ≤ fuel) :
    (nx_udp_socket_bind w mask fuel sid tid p 0 fp ws).status = NX_STATUS.NX_PORT_UNAVAILABLE ∧
    (∀ i, (nx_udp_socket_bind w mask fuel sid tid p 0 fp ws).world.nx_ip_udp_port_table i =
       w.nx_ip_udp_port_table i) ∧
    (∀ x, x ≠ sid → (nx_udp_socket_bind w mask fuel sid tid p 0 fp ws).world.sockets x =
       w.sockets x) ∧
    (nx_udp_socket_bind w mask fuel sid tid p 0 fp ws).world.sockets sid =
      { w.sockets sid with nx_udp_socket_port := p } ∧
    ((nx_udp_socket_bind w mask fuel sid tid p 0 fp ws).world.sockets sid).nx_udp_socket_bound_next = 0 ∧
    ((nx_udp_socket_bind w mask fuel sid tid p 0 fp ws).world.sockets sid).nx_udp_socket_bind_in_progress = 0 := by
  have hid : udp_port_index mask p ≤ mask := udp_port_index_le mask p
  obtain ⟨own, hown_mem, hown_port⟩ := howner
  have hrepne : rep (udp_port_index mask p) ≠ [] := by
    intro hc
    rw [hc] at hown_mem
    cases hown_mem
  have htne : w.nx_ip_udp_port_table (udp_port_index mask p) ≠ 0 := by
    intro hc
    have hh := hInv.1 _ hid
    rw [if_pos hc] at hh
    exact hrepne hh
  have hring : isRing (bound_next_of w) (bound_prev_of w)
      (w.nx_ip_udp_port_table (udp_port_index mask p)) (rep (udp_port_index mask p)) := by
    have hh := hInv.1 _ hid
    rw [if_neg htne] at hh
    exact hh
  have hnotmem := tableInv_not_mem_of_unbound w mask rep hInv sid hs_next _ hid
  have hxne : ∀ x ∈ rep (udp_port_index mask p), x ≠ sid := by
    intro x hx hc
    exact hnotmem (hc ▸ hx)
  have hring1 : isRing
      (bound_next_of (updSocket w sid { w.sockets sid with nx_udp_socket_port := p }))
      (bound_prev_of (updSocket w sid { w.sockets sid with nx_udp_socket_port := p }))
      (w.nx_ip_udp_port_table (udp_port_index mask p)) (rep (udp_port_index mask p)) := by
    refine isRing_congr _ _ _ _ _ _ hring ?_ ?_ <;>
      intro x hx <;>
      simp only [bound_next_of, bound_prev_of, updSocket_sockets, if_neg (hxne x hx)]
  have hfind := walk_ring_match
    (updSocket w sid { w.sockets sid with nx_udp_socket_port := p }).sockets
    (bound_prev_of (updSocket w sid { w.sockets sid with nx_udp_socket_port := p }))
    p (w.nx_ip_udp_port_table (udp_port_index mask p)) (rep (udp_port_index mask p)) fuel
    hring1
    ⟨own, hown_mem, by
      simp only [updSocket_sockets, if_neg (hxne own hown_mem)]
      exact hown_port⟩
    hfuel
  have hfound0 : walkSearch
      (updSocket w sid { w.sockets sid with nx_udp_socket_port := p }).sockets p
      (w.nx_ip_udp_port_table (udp_port_index mask p))
      (w.nx_ip_udp_port_table (udp_port_index mask p)) fuel ≠ 0 := by
    intro hc
    have h0 : (0 : Nat) ∉ rep (udp_port_index mask p) := hring.2.2.2.1
    exact h0 (hc ▸ hfind.1)
  rw [bind_unfold w mask fuel sid tid p 0 fp ws hs_next hs_bip hp0, if_pos htne,
    with_search_unavailable _ _ _ _ _ _ _ hfound0 hfind.2]
  refine ⟨rfl, fun i => rfl, ?_, ?_, ?_, ?_⟩
  · intro x hx
    simp only [updSocket_sockets, if_neg hx]
  · simp only [updSocket_sockets, if_pos rfl, ite_true]
  · simp only [updSocket_sockets, if_pos rfl, ite_true]
    exact hs_next
  · simp only [updSocket_sockets, if_pos rfl, ite_true]
    exact hs_bip

theorem tableInv_extend (w w' : UdpWorld) (mask idx sid : Nat) (rep : Nat → List Nat)
    (hInv : TableInv w mask rep)
    (hidx : idx ≤ mask)
    (hnot : ∀ i, i ≤ mask → sid ∉ rep i)
    (htab_other : ∀ i, i ≤ mask → i ≠ idx →
       w'.nx_ip_udp_port_table i = w.nx_ip_udp_port_table i)
    (htab_idx : w'.nx_ip_udp_port_table idx ≠ 0)
    (hring_idx : isRing (bound_next_of w') (bound_prev_of w')
       (w'.nx_ip_udp_port_table idx) (rep idx ++ [sid]))
    (hfields_other : ∀ i, i ≤ mask → i ≠ idx → ∀ x ∈ rep i,
       bound_next_of w' x = bound_next_of w x ∧ bound_prev_of w' x = bound_prev_of w x ∧
       (w'.sockets x).nx_udp_socket_port = (w.sockets x).nx_udp_socket_port)
    (hport_old_idx : ∀ x ∈ rep idx,
       (w'.sockets x).nx_udp_socket_port = (w.sockets x).nx_udp_socket_port)
    (hsid_port : udp_port_index mask ((w'.sockets sid).nx_udp_socket_port) = idx) :
    TableInv w' mask (fun i => if i = idx then rep idx ++ [sid] else rep i) := by
  obtain ⟨hrings, hhash, hdisj⟩ := hInv
  refine ⟨?_, ?_, ?_⟩
  · intro i hi
    by_cases hieq : i = idx
    · subst hieq
      rw [if_neg htab_idx]
      simp only [ite_true]
      exact hring_idx
    · simp only [if_neg hieq]
      rw [htab_other i hi hieq]
      have hr := hrings i hi
      by_cases h0 : w.nx_ip_udp_port_table i = 0
      · rw [if_pos h0] at hr ⊢
        exact hr
      · rw [if_neg h0] at hr ⊢
        refine isRing_congr _ _ _ _ _ _ hr ?_ ?_ <;> intro x hx
        · exact (hfields_other i hi hieq x hx).1
        · exact (hfields_other i hi hieq x hx).2.1
  · intro i hi x hx
    by_cases hieq : i = idx
    · subst hieq
      simp only [ite_true] at hx
      rcases List.mem_append.mp hx with hxin | hxs
      · rw [hport_old_idx x hxin]
        exact hhash i hi x hxin
      · have hxsid : x = sid := by simpa using hxs
        subst hxsid
        exact hsid_port
    · simp only [if_neg hieq] at hx
      rw [(hfields_other i hi hieq x hx).2.2]
      exact hhash i hi x hx
  · intro i hi j hj hij x hx
    by_cases hieq : i = idx
    · subst hieq
      simp only [ite_true] at hx
      simp only [if_neg (Ne.symm hij)]
      rcases List.mem_append.mp hx with hxin | hxs
      · exact hdisj i hi j hj hij x hxin
      · have hxsid : x = sid := by simpa using hxs
        subst hxsid
        exact hnot j hj
    · simp only [if_neg hieq] at hx
      by_cases hjeq : j = idx
      · subst hjeq
        simp only [ite_true]
        intro hc
        rcases List.mem_append.mp hc with hxin | hxs
        · exact hdisj i hi j hj hij x hx hxin
        · have hxsid : x = sid := by simpa using hxs
          exact hnot i hi (hxsid ▸ hx)
      · simp only [if_neg hjeq]
        exact hdisj i hi j hj hij x hx

/-- C10: a colliding UDP bind with `wait_option ≠ 0` suspends the caller, and
at the suspension point the binding socket has `bound_next` still null,
`bind_in_progress` set to the calling thread, and `bound_previous` pointing
at the nonzero socket that owns the port, while the socket is on no bucket
ring and the port-table invariant is untouched. -/
theorem C10_udp_bind_wait_suspension_state
    (w : UdpWorld) (mask fuel sid tid p wait : Nat) (rep : Nat → List Nat) (fp : Option Nat)
    (ws : NX_STATUS)
    (hInv : TableInv w mask rep)
    (hs_next : (w.sockets sid).nx_udp_socket_bound_next = 0)
    (hs_bip : (w.sockets sid).nx_udp_socket_bind_in_progress = 0)
    (hp0 : p ≠ 0)
    (howner : ∃ x ∈ rep (udp_port_index mask p), (w.sockets x).nx_udp_socket_port = p)
    (hfuel : (rep (udp_port_index mask p)).length ≤ fuel)
    (hwait : wait ≠ 0) :
    (nx_udp_socket_bind w mask fuel sid tid p wait fp ws).suspended = true ∧
    ((nx_udp_socket_bind w mask fuel sid tid p wait fp ws).world.sockets sid).nx_udp_socket_bound_next = 0 ∧
    ((nx_udp_socket_bind w mask fuel sid tid p wait fp ws).world.sockets sid).nx_udp_socket_bind_in_progress = tid ∧
    (∃ f, f ∈ rep (udp_port_index mask p) ∧ f ≠ 0 ∧
       (w.sockets f).nx_udp_socket_port = p ∧
       ((nx_udp_socket_bind w mask fuel sid tid p wait fp ws).world.sockets sid).nx_udp_socket_bound_previous = f) ∧
    TableInv (nx_udp_socket_bind w mask fuel sid tid p wait fp ws).world mask rep ∧
    (∀ i, i ≤ mask → sid ∉ rep i) := by
  have hid : udp_port_index mask p ≤ mask := udp_port_index_le mask p
  obtain ⟨own, hown_mem, hown_port⟩ := howner
  have hrepne : rep (udp_port_index mask p) ≠ [] := by
    intro hc
    rw [hc] at hown_mem
    cases hown_mem
  have htne : w.nx_ip_udp_port_table (udp_port_index mask p) ≠ 0 := by
    intro hc
    have hh := hInv.1 _ hid
    rw [if_pos hc] at hh
    exact hrepne hh
  have hring : isRing (bound_next_of w) (bound_prev_of w)
      (w.nx_ip_udp_port_table (udp_port_index mask p)) (rep (udp_port_index mask p)) := by
    have hh := hInv.1 _ hid
    rw [if_neg htne] at hh
    exact hh
  have hnotmemAll : ∀ i, i ≤ mask → sid ∉ rep i :=
    tableInv_not_mem_of_unbound w mask rep hInv sid hs_next
  have hxne : ∀ x ∈ rep (udp_port_index mask p), x ≠ sid := by
    intro x hx hc
    exact hnotmemAll _ hid (hc ▸ hx)
  have hring1 : isRing
      (bound_next_of (updSocket w sid { w.sockets sid with nx_udp_socket_port := p }))
      (bound_prev_of (updSocket w sid { w.sockets sid with nx_udp_socket_port := p }))
      (w.nx_ip_udp_port_table (udp_port_index mask p)) (rep (udp_port_index mask p)) := by
    refine isRing_congr _ _ _ _ _ _ hring ?_ ?_ <;>
      intro x hx <;>
      simp only [bound_next_of, bound_prev_of, updSocket_sockets, if_neg (hxne x hx)]
  have hfind := walk_ring_match
    (updSocket w sid { w.sockets sid with nx_udp_socket_port := p }).sockets
    (bound_prev_of (updSocket w sid { w.sockets sid with nx_udp_socket_port := p }))
    p (w.nx_ip_udp_port_table (udp_port_index mask p)) (rep (udp_port_index mask p)) fuel
    hring1
    ⟨own, hown_mem, by
      simp only [updSocket_sockets, if_neg (hxne own hown_mem)]
      exact hown_port⟩
    hfuel
  have hfound0 : walkSearch
      (updSocket w sid { w.sockets sid with nx_udp_socket_port := p }).sockets p
      (w.nx_ip_udp_port_table (udp_port_index mask p))
      (w.nx_ip_udp_port_table (udp_port_index mask p)) fuel ≠ 0 := by
    intro hc
    have h0 : (0 : Nat) ∉ rep (udp_port_index mask p) := hring.2.2.2.1
    exact h0 (hc ▸ hfind.1)
  have hFsid : walkSearch
      (updSocket w sid { w.sockets sid with nx_udp_socket_port := p }).sockets p
      (w.nx_ip_udp_port_table (udp_port_index mask p))
      (w.nx_ip_udp_port_table (udp_port_index mask p)) fuel ≠ sid := hxne _ hfind.1
  have hsf := udp_bind_suspend_fields
    (updSocket w sid { w.sockets sid with nx_udp_socket_port := p })
    (walkSearch
      (updSocket w sid { w.sockets sid with nx_udp_socket_port := p }).sockets p
      (w.nx_ip_udp_port_table (udp_port_index mask p))
      (w.nx_ip_udp_port_table (udp_port_index mask p)) fuel)
    sid tid wait hFsid
  rw [bind_unfold w mask fuel sid tid p wait fp ws hs_next hs_bip hp0, if_pos htne,
    with_search_suspend _ _ _ _ _ _ _ _ hfound0 hfind.2 hwait]
  refine ⟨rfl, ?_, ?_, ?_, ?_, hnotmemAll⟩
  · rw [hsf.2.1.2.1]
    simp only [updSocket_sockets, ite_true]
    exact hs_next
  · exact hsf.2.1.2.2.2
  · refine ⟨_, hfind.1, hfound0, ?_, hsf.2.1.2.2.1⟩
    have hp := hfind.2
    simp only [updSocket_sockets, if_neg hFsid] at hp
    exact hp
  · refine tableInv_frame w _ mask rep hInv ?_ ?_
    · intro i hi
      rw [hsf.1]
      rfl
    · intro i hi x hx
      have hxs : x ≠ sid := fun hc => hnotmemAll i hi (hc ▸ hx)
      obtain ⟨hn, hpv, hpt⟩ := hsf.2.2 x hxs
      refine ⟨?_, ?_, ?_⟩
      · show bound_next_of _ x = _
        rw [show bound_next_of _ x =
            ((udp_bind_suspend (updSocket w sid { w.sockets sid with nx_udp_socket_port := p })
              (walkSearch
                (updSocket w sid { w.sockets sid with nx_udp_socket_port := p }).sockets p
                (w.nx_ip_udp_port_table (udp_port_index mask p))
                (w.nx_ip_udp_port_table (udp_port_index mask p)) fuel)
              sid tid wait).sockets x).nx_udp_socket_bound_next from rfl, hn]
        simp only [bound_next_of, updSocket_sockets, if_neg hxs]
      · show bound_prev_of _ x = _
        rw [show bound_prev_of _ x =
            ((udp_bind_suspend (updSocket w sid { w.sockets sid with nx_udp_socket_port := p })
              (walkSearch
                (updSocket w sid { w.sockets sid with nx_udp_socket_port := p }).sockets p
                (w.nx_ip_udp_port_table (udp_port_index mask p))
                (w.nx_ip_udp_port_table (udp_port_index mask p)) fuel)
              sid tid wait).sockets x).nx_udp_socket_bound_previous from rfl, hpv]
        simp only [bound_prev_of, updSocket_sockets, if_neg hxs]
      · rw [hpt]
        simp only [updSocket_sockets, if_neg hxs]

/-- C6: a successful UDP bind of a fresh socket to port `p` returns
`NX_SUCCESS` and splices the socket at the end of the bucket at index
`(p + (p >> 8)) & mask` of the port hash table, preserving the invariant
that every bucket is a closed doubly-linked ring whose members all hash to
that bucket's index; if the bucket was empty the socket becomes a
self-loop. -/
theorem C6_udp_bind_bucket_invariant
    (w : UdpWorld) (mask fuel sid tid p wait : Nat) (rep : Nat → List Nat) (fp : Option Nat)
    (ws : NX_STATUS)
    (hInv : TableInv w mask rep)
    (hs_next : (w.sockets sid).nx_udp_socket_bound_next = 0)
    (hs_bip : (w.sockets sid).nx_udp_socket_bind_in_progress = 0)
    (hp0 : p ≠ 0) (hsid0 : sid ≠ 0)
    (hnoowner : ∀ x ∈ rep (udp_port_index mask p), (w.sockets x).nx_udp_socket_port ≠ p)
    (hfuel : (rep (udp_port_index mask p)).length ≤ fuel) :
    (nx_udp_socket_bind w mask fuel sid tid p wait fp ws).status = NX_STATUS.NX_SUCCESS ∧
    (nx_udp_socket_bind w mask fuel sid tid p wait fp ws).suspended = false ∧
    TableInv (nx_udp_socket_bind w mask fuel sid tid p wait fp ws).world mask
      (fun i => if i = udp_port_index mask p then rep (udp_port_index mask p) ++ [sid]
                else rep i) ∧
    (rep (udp_port_index mask p) = [] →
       bound_next_of (nx_udp_socket_bind w mask fuel sid tid p wait fp ws).world sid = sid ∧
       bound_prev_of (nx_udp_socket_bind w mask fuel sid tid p wait fp ws).world sid = sid) := by
  have hid : udp_port_index mask p ≤ mask := udp_port_index_le mask p
  have hnotmemAll : ∀ i, i ≤ mask → sid ∉ rep i :=
    tableInv_not_mem_of_unbound w mask rep hInv sid hs_next
  have hxne : ∀ x ∈ rep (udp_port_index mask p), x ≠ sid := by
    intro x hx hc
    exact hnotmemAll _ hid (hc ▸ hx)
  by_cases hte : w.nx_ip_udp_port_table (udp_port_index mask p) = 0
  · -- empty bucket: socket becomes a self-loop and new bucket head
    have hrepnil : rep (udp_port_index mask p) = [] := by
      have hh := hInv.1 _ hid
      rwa [if_pos hte] at hh
    rw [bind_unfold w mask fuel sid tid p wait fp ws hs_next hs_bip hp0,
      if_neg (not_not_intro hte),
      with_search_available _ _ _ _ _ _ _ _ (Or.inl rfl)]
    have hef := udp_bind_splice_empty_fields
      (updSocket w sid { w.sockets sid with nx_udp_socket_port := p })
      (udp_port_index mask p) sid
    have hn : bound_next_of (udp_bind_splice
        (updSocket w sid { w.sockets sid with nx_udp_socket_port := p })
        (udp_port_index mask p) 0 sid) sid = sid := by
      rw [hef.2.1, if_pos rfl]
    have hpv : bound_prev_of (udp_bind_splice
        (updSocket w sid { w.sockets sid with nx_udp_socket_port := p })
        (udp_port_index mask p) 0 sid) sid = sid := by
      rw [hef.2.2.1, if_pos rfl]
    refine ⟨rfl, rfl, ?_, fun _ => ⟨hn, hpv⟩⟩
    refine tableInv_extend w _ mask (udp_port_index mask p) sid rep hInv hid hnotmemAll
      ?_ ?_ ?_ ?_ ?_ ?_
    · intro i hi hieq
      rw [hef.1, if_neg hieq]
      rfl
    · rw [hef.1, if_pos rfl]
      exact hsid0
    · rw [hef.1, if_pos rfl, hrepnil]
      simp only [List.nil_append]
      refine ⟨by simp, rfl, List.nodup_singleton _, ?_, ?_, ?_⟩
      · simp only [List.mem_singleton]
        exact fun hc => hsid0 hc.symm
      · simp [nextPathB, hn]
      · simp [nextPathB, hpv]
    · intro i hi hieq x hx
      have hxs : x ≠ sid := fun hc => hnotmemAll i hi (hc ▸ hx)
      refine ⟨?_, ?_, ?_⟩
      · rw [hef.2.1, if_neg hxs]
        simp only [bound_next_of, updSocket_sockets, if_neg hxs]
      · rw [hef.2.2.1, if_neg hxs]
        simp only [bound_prev_of, updSocket_sockets, if_neg hxs]
      · rw [hef.2.2.2]
        simp only [updSocket_sockets, if_neg hxs]
    · intro x hx
      rw [hrepnil] at hx
      cases hx
    · rw [hef.2.2.2]
      simp only [updSocket_sockets, ite_true]
  · -- nonempty bucket: walk finds no owner, socket spliced at the end
    have hring : isRing (bound_next_of w) (bound_prev_of w)
        (w.nx_ip_udp_port_table (udp_port_index mask p)) (rep (udp_port_index mask p)) := by
      have hh := hInv.1 _ hid
      rw [if_neg hte] at hh
      exact hh
    have hring1 : isRing
        (bound_next_of (updSocket w sid { w.sockets sid with nx_udp_socket_port := p }))
        (bound_prev_of (updSocket w sid { w.sockets sid with nx_udp_socket_port := p }))
        (w.nx_ip_udp_port_table (udp_port_index mask p)) (rep (udp_port_index mask p)) := by
      refine isRing_congr _ _ _ _ _ _ hring ?_ ?_ <;>
        intro x hx <;>
        simp only [bound_next_of, bound_prev_of, updSocket_sockets, if_neg (hxne x hx)]
    have hports1 : ∀ x ∈ rep (udp_port_index mask p),
        ((updSocket w sid { w.sockets sid with nx_udp_socket_port := p }).sockets x).nx_udp_socket_port ≠ p := by
      intro x hx
      simp only [updSocket_sockets, if_neg (hxne x hx)]
      exact hnoowner x hx
    have hwalk := walk_ring_no_match
      (updSocket w sid { w.sockets sid with nx_udp_socket_port := p }).sockets
      (bound_prev_of (updSocket w sid { w.sockets sid with nx_udp_socket_port := p }))
      p (w.nx_ip_udp_port_table (udp_port_index mask p)) (rep (udp_port_index mask p)) fuel
      hring1 hports1 hfuel
    have hhmem : w.nx_ip_udp_port_table (udp_port_index mask p) ∈ rep (udp_port_index mask p) := by
      obtain ⟨t, ht⟩ := isRing_destruct _ _ _ _ hring
      rw [ht]
      exact List.mem_cons_self _ _
    rw [bind_unfold w mask fuel sid tid p wait fp ws hs_next hs_bip hp0, if_pos hte, hwalk,
      with_search_available _ _ _ _ _ _ _ _ (Or.inr (hports1 _ hhmem))]
    have hhsid : w.nx_ip_udp_port_table (udp_port_index mask p) ≠ sid := hxne _ hhmem
    have hprevmem : bound_prev_of
        (updSocket w sid { w.sockets sid with nx_udp_socket_port := p })
        (w.nx_ip_udp_port_table (udp_port_index mask p)) ∈ rep (udp_port_index mask p) :=
      isRing_prev_mem _ _ _ _ hring1 _ hhmem
    have hcsid : ((updSocket w sid { w.sockets sid with nx_udp_socket_port := p }).sockets
        (w.nx_ip_udp_port_table (udp_port_index mask p))).nx_udp_socket_bound_previous ≠ sid :=
      hxne _ hprevmem
    have hnx := udp_bind_splice_nonempty_next
      (updSocket w sid { w.sockets sid with nx_udp_socket_port := p })
      (udp_port_index mask p) (w.nx_ip_udp_port_table (udp_port_index mask p)) sid
      hte rfl hhsid hcsid
    have hpv := udp_bind_splice_nonempty_prev
      (updSocket w sid { w.sockets sid with nx_udp_socket_port := p })
      (udp_port_index mask p) (w.nx_ip_udp_port_table (udp_port_index mask p)) sid
      hte rfl hhsid hcsid
    have hpt := udp_bind_splice_nonempty_port
      (updSocket w sid { w.sockets sid with nx_udp_socket_port := p })
      (udp_port_index mask p) (w.nx_ip_udp_port_table (udp_port_index mask p)) sid
      hte rfl hhsid hcsid
    have htb := udp_bind_splice_nonempty_table
      (updSocket w sid { w.sockets sid with nx_udp_socket_port := p })
      (udp_port_index mask p) (w.nx_ip_udp_port_table (udp_port_index mask p)) sid hte
    have hsplice := ring_splice
      (bound_next_of (updSocket w sid { w.sockets sid with nx_udp_socket_port := p }))
      (bound_prev_of (updSocket w sid { w.sockets sid with nx_udp_socket_port := p }))
      (bound_next_of (udp_bind_splice
        (updSocket w sid { w.sockets sid with nx_udp_socket_port := p })
        (udp_port_index mask p) (w.nx_ip_udp_port_table (udp_port_index mask p)) sid))
      (bound_prev_of (udp_bind_splice
        (updSocket w sid { w.sockets sid with nx_udp_socket_port := p })
        (udp_port_index mask p) (w.nx_ip_udp_port_table (udp_port_index mask p)) sid))
      (w.nx_ip_udp_port_table (udp_port_index mask p)) sid (rep (udp_port_index mask p))
      hring1 (hnotmemAll _ hid) hsid0 hnx hpv
    refine ⟨rfl, rfl, ?_, ?_⟩
    · refine tableInv_extend w _ mask (udp_port_index mask p) sid rep hInv hid hnotmemAll
        ?_ ?_ ?_ ?_ ?_ ?_
      · intro i hi hieq
        rw [htb]
        rfl
      · rw [htb]
        exact hte
      · rw [htb]
        exact hsplice
      · intro i hi hieq x hx
        have hxs : x ≠ sid := fun hc => hnotmemAll i hi (hc ▸ hx)
        have hxnotidx : x ∉ rep (udp_port_index mask p) :=
          hInv.2.2 i hi (udp_port_index mask p) hid hieq x hx
        have hxh : x ≠ w.nx_ip_udp_port_table (udp_port_index mask p) :=
          fun hc => hxnotidx (hc ▸ hhmem)
        have hxprev : x ≠ ((updSocket w sid
            { w.sockets sid with nx_udp_socket_port := p }).sockets
            (w.nx_ip_udp_port_table (udp_port_index mask p))).nx_udp_socket_bound_previous :=
          fun hc => hxnotidx (by rw [hc]; exact hprevmem)
        refine ⟨?_, ?_, ?_⟩
        · rw [hnx, if_neg hxs, if_neg hxprev]
          simp only [bound_next_of, updSocket_sockets, if_neg hxs]
        · rw [hpv, if_neg hxs, if_neg hxh]
          simp only [bound_prev_of, updSocket_sockets, if_neg hxs]
        · rw [hpt]
          simp only [updSocket_sockets, if_neg hxs]
      · intro x hx
        rw [hpt]
        simp only [updSocket_sockets, if_neg (hxne x hx)]
      · rw [hpt]
        simp only [updSocket_sockets, ite_true]
    · intro hc
      exact absurd hc hring.1

/-- C4, counterexample to the claim's rollback sentence: binding socket 2 of
`udpWorld0` to the occupied port 5000 with no wait returns
`NX_PORT_UNAVAILABLE` yet leaves the socket's recorded port at 5000, though
it was 0 before the call. -/
theorem C4_udp_bind_collision_rollback_counterexample :
    (nx_udp_socket_bind udpWorld0 15 1 2 9 5000 0 none NX_STATUS.NX_SUCCESS).status =
      NX_STATUS.NX_PORT_UNAVAILABLE ∧
    ((nx_udp_socket_bind udpWorld0 15 1 2 9 5000 0 none NX_STATUS.NX_SUCCESS).world.sockets 2).nx_udp_socket_port = 5000 ∧
    (udpWorld0.sockets 2).nx_udp_socket_port = 0 := by decide

theorem C4_udp_bind_collision_rollback_amended_witness :
    (nx_udp_socket_bind udpWorld0 15 1 2 9 5000 0 none NX_STATUS.NX_SUCCESS).world.sockets 2 =
      { udpWorld0.sockets 2 with nx_udp_socket_port := 5000 } :=
  (C4_udp_bind_collision_rollback_amended udpWorld0 15 1 2 9 5000 udpRep0 none NX_STATUS.NX_SUCCESS
    (by unfold TableInv isRing; decide) (by decide)
    (by decide) (by decide) ⟨1, by decide, by decide⟩ (by decide)).2.2.2.1

theorem C10_udp_bind_wait_suspension_state_witness :
    ((nx_udp_socket_bind udpWorld0 15 1 2 9 5000 7 none NX_STATUS.NX_SUCCESS).world.sockets 2).nx_udp_socket_bind_in_progress = 9 :=
  (C10_udp_bind_wait_suspension_state udpWorld0 15 1 2 9 5000 7 udpRep0 none NX_STATUS.NX_SUCCESS
    (by unfold TableInv isRing; decide) (by decide)
    (by decide) (by decide) ⟨1, by decide, by decide⟩ (by decide) (by decide)).2.2.1

theorem C6_udp_bind_bucket_invariant_witness :
    (nx_udp_socket_bind udpWorld0 15 1 2 9 4984 0 none NX_STATUS.NX_SUCCESS).status =
      NX_STATUS.NX_SUCCESS :=
  (C6_udp_bind_bucket_invariant udpWorld0 15 1 2 9 4984 0 udpRep0 none NX_STATUS.NX_SUCCESS
    (by unfold TableInv isRing; decide) (by decide)
    (by decide) (by decide) (by decide) (by decide) (by decide)).1
